import Mathlib

/-!
Verification of the stork reconciliation controllers.

A shallow embedding of the two controllers in
`pkg/groupsnapshot/controllers/groupsnapshot.go` and
`pkg/applicationmanager/controllers/applicationrestore.go`.

Pure Go functions become Lean functions; the Kubernetes API server that
stores the derived `VolumeSnapshot` / `VolumeSnapshotData` objects becomes an
explicit `Store` value threaded through the operations; external
collaborators (the volume driver, the rule execution subsystem, the object
store and the resource collector) become oracle fields of an environment
record, holding the results their calls would return.  Injected API faults
(used to exercise the error and rollback paths) are a `Faults` record; the
fault-free instance reproduces plain API-server behaviour.

Concurrency that the claims do not touch (the background-rule termination
channels) and wall-clock delays inside backoff loops are not modelled; the
backoff loop itself is modelled by its attempt count.
-/

/-- `v1.ConditionStatus` (core Kubernetes): True / False / Unknown. -/
inductive ConditionStatus
  | conditionTrue
  | conditionFalse
  | conditionUnknown
deriving DecidableEq

/-- `crdv1.VolumeSnapshotConditionType`: the condition types consulted by the
controller (`VolumeSnapshotConditionError`, `...Ready`, `...Pending`). -/
inductive VolumeSnapshotConditionType
  | error
  | ready
  | pending
deriving DecidableEq

/-- `crdv1.VolumeSnapshotCondition`: one driver-reported condition.
(`ctype` stands for the Go field `Type`, a reserved word in Lean.) -/
structure VolumeSnapshotCondition where
  ctype : VolumeSnapshotConditionType
  status : ConditionStatus
  message : String
deriving DecidableEq

/-- `stork_api.VolumeSnapshotStatus`: one per-volume snapshot record inside a
group snapshot's status. -/
structure VolumeSnapshotStatus where
  parentVolumeID : String
  taskID : String
  volumeSnapshotName : String
  /-- `DataSource` payload, opaque to the controller. -/
  dataSource : String
  conditions : List VolumeSnapshotCondition
deriving DecidableEq

/-- Loop body of `isAnySnapshotFailed` (groupsnapshot.go:746-756): collect the
task IDs of records whose condition list is non-empty and whose first
condition (`conditions[0]`, named `lastCondition` in the source) has status
True and type Error. -/
def failedTasksLoop : List VolumeSnapshotStatus → List String
  | [] => []
  | snapshot :: rest =>
    match snapshot.conditions with
    | lastCondition :: _ =>
      if lastCondition.status == ConditionStatus.conditionTrue &&
          lastCondition.ctype == VolumeSnapshotConditionType.error then
        snapshot.taskID :: failedTasksLoop rest
      else
        failedTasksLoop rest
    | [] => failedTasksLoop rest

/-- `isAnySnapshotFailed` (groupsnapshot.go:746-759): whether any of the given
snapshots is in error state, together with the task IDs of the failed ones. -/
def isAnySnapshotFailed (snapshots : List VolumeSnapshotStatus) :
    Bool × List String :=
  let failedTasks := failedTasksLoop snapshots
  (decide (failedTasks.length > 0), failedTasks)

/-- Loop body of `areAllSnapshotsDone` (groupsnapshot.go:782-791): count the
records whose first condition is Ready/True. -/
def readySnapshotCount : List VolumeSnapshotStatus → Nat
  | [] => 0
  | snapshot :: rest =>
    match snapshot.conditions with
    | lastCondition :: _ =>
      if lastCondition.status == ConditionStatus.conditionTrue &&
          lastCondition.ctype == VolumeSnapshotConditionType.ready then
        readySnapshotCount rest + 1
      else
        readySnapshotCount rest
    | [] => readySnapshotCount rest

/-- `areAllSnapshotsDone` (groupsnapshot.go:777-794). -/
def areAllSnapshotsDone (snapshots : List VolumeSnapshotStatus) : Bool :=
  if snapshots.length == 0 then false
  else readySnapshotCount snapshots == snapshots.length

/-- `areAllSnapshotsStarted` (groupsnapshot.go:761-775). -/
def areAllSnapshotsStarted (snapshots : List VolumeSnapshotStatus) : Bool :=
  if snapshots.length == 0 then false
  else snapshots.all (fun snapshot => !(snapshot.conditions.length == 0))

/-- Whether a record's first condition is Error with status True (the test
applied by `isAnySnapshotFailed` to each record). -/
def snapshotFailedHead (s : VolumeSnapshotStatus) : Bool :=
  match s.conditions with
  | lastCondition :: _ =>
    lastCondition.status == ConditionStatus.conditionTrue &&
      lastCondition.ctype == VolumeSnapshotConditionType.error
  | [] => false

/-- Whether a record's first condition is Ready with status True (the test
applied by `areAllSnapshotsDone` to each record). -/
def snapshotReadyHead (s : VolumeSnapshotStatus) : Bool :=
  match s.conditions with
  | lastCondition :: _ =>
    lastCondition.status == ConditionStatus.conditionTrue &&
      lastCondition.ctype == VolumeSnapshotConditionType.ready
  | [] => false

theorem failedTasksLoop_eq_filter (l : List VolumeSnapshotStatus) :
    failedTasksLoop l =
      (l.filter snapshotFailedHead).map VolumeSnapshotStatus.taskID := by
  induction l with
  | nil => rfl
  | cons s rest ih =>
    unfold failedTasksLoop
    cases hc : s.conditions with
    | nil => simp [List.filter, snapshotFailedHead, hc, ih]
    | cons c cs =>
      by_cases hb : (c.status == ConditionStatus.conditionTrue &&
          c.ctype == VolumeSnapshotConditionType.error) = true
      · simp [List.filter, snapshotFailedHead, hc, hb, ih]
      · rw [Bool.not_eq_true] at hb
        simp [List.filter, snapshotFailedHead, hc, hb, ih]

theorem snapshotFailedHead_iff (s : VolumeSnapshotStatus) :
    snapshotFailedHead s = true ↔
      ∃ c cs, s.conditions = c :: cs ∧
        c.status = ConditionStatus.conditionTrue ∧
        c.ctype = VolumeSnapshotConditionType.error := by
  obtain ⟨pv, tid, vn, ds, conds⟩ := s
  cases conds with
  | nil => simp [snapshotFailedHead]
  | cons c cs =>
    simp only [snapshotFailedHead, Bool.and_eq_true, beq_iff_eq]
    constructor
    · rintro ⟨h1, h2⟩; exact ⟨c, cs, rfl, h1, h2⟩
    · rintro ⟨c', cs', heq, h1, h2⟩
      injection heq with h3 h4
      subst h3; exact ⟨h1, h2⟩

theorem snapshotReadyHead_iff (s : VolumeSnapshotStatus) :
    snapshotReadyHead s = true ↔
      ∃ c cs, s.conditions = c :: cs ∧
        c.status = ConditionStatus.conditionTrue ∧
        c.ctype = VolumeSnapshotConditionType.ready := by
  obtain ⟨pv, tid, vn, ds, conds⟩ := s
  cases conds with
  | nil => simp [snapshotReadyHead]
  | cons c cs =>
    simp only [snapshotReadyHead, Bool.and_eq_true, beq_iff_eq]
    constructor
    · rintro ⟨h1, h2⟩; exact ⟨c, cs, rfl, h1, h2⟩
    · rintro ⟨c', cs', heq, h1, h2⟩
      injection heq with h3 h4
      subst h3; exact ⟨h1, h2⟩

theorem readySnapshotCount_le (l : List VolumeSnapshotStatus) :
    readySnapshotCount l ≤ l.length := by
  induction l with
  | nil => simp [readySnapshotCount]
  | cons s rest ih =>
    unfold readySnapshotCount
    cases hc : s.conditions with
    | nil => simpa using Nat.le_succ_of_le ih
    | cons c cs =>
      by_cases hb : (c.status == ConditionStatus.conditionTrue &&
          c.ctype == VolumeSnapshotConditionType.ready) = true
      · simpa [hb] using ih
      · rw [Bool.not_eq_true] at hb
        simpa [hb] using Nat.le_succ_of_le ih

theorem readySnapshotCount_eq_length_iff (l : List VolumeSnapshotStatus) :
    readySnapshotCount l = l.length ↔
      ∀ s ∈ l, snapshotReadyHead s = true := by
  induction l with
  | nil => simp [readySnapshotCount]
  | cons s rest ih =>
    unfold readySnapshotCount
    have hhead : ∀ (b : Bool),
        (match s.conditions with
          | lastCondition :: _ =>
            lastCondition.status == ConditionStatus.conditionTrue &&
              lastCondition.ctype == VolumeSnapshotConditionType.ready
          | [] => false) = b ↔ snapshotReadyHead s = b := by
      intro b; rfl
    cases hc : s.conditions with
    | nil =>
      have hne : readySnapshotCount rest ≠ rest.length + 1 := by
        have := readySnapshotCount_le rest
        omega
      simp only [hc, List.length_cons]
      constructor
      · intro h; exact absurd h hne
      · intro h
        have : snapshotReadyHead s = true := h s (by simp)
        rw [snapshotReadyHead_iff] at this
        obtain ⟨c, cs, hcs, _⟩ := this
        rw [hc] at hcs
        exact absurd hcs (by simp)
    | cons c cs =>
      by_cases hb : (c.status == ConditionStatus.conditionTrue &&
          c.ctype == VolumeSnapshotConditionType.ready) = true
      · have hs : snapshotReadyHead s = true := by
          unfold snapshotReadyHead; rw [hc]; exact hb
        simp only [hc, hb, if_true, List.length_cons, Nat.add_right_cancel_iff]
        rw [ih]
        constructor
        · intro h t ht
          rcases List.mem_cons.mp ht with h1 | h2
          · rw [h1]; exact hs
          · exact h t h2
        · intro h t ht; exact h t (List.mem_cons_of_mem s ht)
      · rw [Bool.not_eq_true] at hb
        have hs : snapshotReadyHead s = false := by
          unfold snapshotReadyHead; rw [hc]; exact hb
        have hne : readySnapshotCount rest ≠ rest.length + 1 := by
          have := readySnapshotCount_le rest
          omega
        simp only [hc, hb, if_false, List.length_cons]
        constructor
        · intro h; exact absurd h hne
        · intro h
          have := h s (by simp)
          rw [hs] at this
          exact absurd this (by simp)

/-- C10: `isAnySnapshotFailed` returns true exactly when some record has a
non-empty condition list whose first element is Error/True; its task-ID list
is exactly the task IDs of those records, in order; an Error condition at a
non-first position is invisible to it; and `areAllSnapshotsDone` holds exactly
when the record list is non-empty and every record's first condition is
Ready/True, so it is false on an empty list or when any record has zero
conditions. -/
theorem isAnySnapshotFailed_areAllSnapshotsDone_characterization :
    (∀ l : List VolumeSnapshotStatus,
      (isAnySnapshotFailed l).fst = true ↔
        ∃ s, s ∈ l ∧ ∃ c cs, s.conditions = c :: cs ∧
          c.status = ConditionStatus.conditionTrue ∧
          c.ctype = VolumeSnapshotConditionType.error) ∧
    (∀ l : List VolumeSnapshotStatus,
      (isAnySnapshotFailed l).snd =
        (l.filter snapshotFailedHead).map VolumeSnapshotStatus.taskID) ∧
    (∀ l : List VolumeSnapshotStatus,
      areAllSnapshotsDone l = true ↔
        l ≠ [] ∧ ∀ s ∈ l, ∃ c cs, s.conditions = c :: cs ∧
          c.status = ConditionStatus.conditionTrue ∧
          c.ctype = VolumeSnapshotConditionType.ready) ∧
    (areAllSnapshotsDone [] = false) ∧
    (∀ (l : List VolumeSnapshotStatus) (s : VolumeSnapshotStatus),
      s ∈ l → s.conditions = [] → areAllSnapshotsDone l = false) := by
  have hdone : ∀ l : List VolumeSnapshotStatus,
      areAllSnapshotsDone l = true ↔
        l ≠ [] ∧ ∀ s ∈ l, ∃ c cs, s.conditions = c :: cs ∧
          c.status = ConditionStatus.conditionTrue ∧
          c.ctype = VolumeSnapshotConditionType.ready := by
    intro l
    unfold areAllSnapshotsDone
    rcases l with _ | ⟨s, rest⟩
    · simp
    · rw [if_neg (by simp)]
      rw [beq_iff_eq]
      rw [readySnapshotCount_eq_length_iff]
      constructor
      · intro h
        refine ⟨by simp, fun t ht => ?_⟩
        exact (snapshotReadyHead_iff t).mp (h t ht)
      · intro ⟨_, h⟩ t ht
        exact (snapshotReadyHead_iff t).mpr (h t ht)
  refine ⟨?_, ?_, hdone, by rfl, ?_⟩
  · intro l
    unfold isAnySnapshotFailed
    rw [failedTasksLoop_eq_filter]
    simp only [decide_eq_true_eq, gt_iff_lt, List.length_pos, Ne,
      List.map_eq_nil_iff]
    constructor
    · intro h
      rcases List.exists_mem_of_ne_nil _ h with ⟨s, hs⟩
      rw [List.mem_filter] at hs
      exact ⟨s, hs.1, (snapshotFailedHead_iff s).mp hs.2⟩
    · intro ⟨s, hsl, hcond⟩
      have : s ∈ l.filter snapshotFailedHead :=
        List.mem_filter.mpr ⟨hsl, (snapshotFailedHead_iff s).mpr hcond⟩
      exact List.ne_nil_of_mem this
  · intro l
    unfold isAnySnapshotFailed
    rw [failedTasksLoop_eq_filter]
  · intro l s hsl hnil
    rcases h : areAllSnapshotsDone l with _ | _
    · rfl
    · exfalso
      obtain ⟨_, hall⟩ := (hdone l).mp h
      obtain ⟨c, cs, hcs, _⟩ := hall s hsl
      rw [hnil] at hcs
      exact absurd hcs (by simp)

/-! ## Version parsing (the `github.com/hashicorp/go-version` collaborator)

`handle` parses the recorded floor and the incoming `ResourceVersion` with
`version.NewVersion` and compares them with `Version.LessThan`.  Kubernetes
resource versions are opaque decimal strings; the external library parses a
dotted sequence of decimal segments and compares segment-wise, padding the
shorter side with zeros.  That contract is modelled here. -/

/-- Parse a non-empty all-decimal-digit character run. -/
def parseDecSegment (cs : List Char) : Option Nat :=
  if cs.isEmpty then none
  else if cs.all Char.isDigit then
    some (cs.foldl (fun acc c => acc * 10 + (c.toNat - '0'.toNat)) 0)
  else none

/-- Split a character list at the `.` separators (Go's `strings.Split`). -/
def splitSegs : List Char → List Char → List (List Char)
  | cur, [] => [cur.reverse]
  | cur, c :: cs =>
    if c == '.' then cur.reverse :: splitSegs [] cs
    else splitSegs (c :: cur) cs

/-- `version.NewVersion` restricted to dotted decimal versions: the list of
numeric segments, or `none` when some segment is not a decimal number. -/
def newVersion (s : String) : Option (List Nat) :=
  (splitSegs [] s.data).mapM parseDecSegment

/-- Whether every segment is zero (a zero-padded empty remainder). -/
def allZero : List Nat → Bool
  | [] => true
  | b :: bs => b == 0 && allZero bs

/-- `Version.LessThan`: segment-wise comparison, the shorter side padded with
zeros (so an exhausted left side is smaller exactly when a non-zero segment
remains on the right, and an exhausted right side is never greater). -/
def segmentsLess : List Nat → List Nat → Bool
  | [], bs => !(allZero bs)
  | _ :: _, [] => false
  | a :: as, b :: bs =>
    if a < b then true else if b < a then false else segmentsLess as bs

/-! ## Kubernetes API errors and the derived-object store

`k8sextops` (sched-ops) calls against the API server for the derived
`VolumeSnapshot` / `VolumeSnapshotData` objects.  The store keeps the objects;
`Faults` lets a theorem inject API failures on specific object names (the
fault-free record reproduces plain behaviour).  `errors.IsAlreadyExists`
recognises only the `alreadyExists` constructor. -/

/-- A Go `error` from the API machinery, as classified by
`k8serrors.IsAlreadyExists` / `IsNotFound`. -/
inductive GoErr
  | alreadyExists (name : String)
  | notFound (name : String)
  | apiErr (msg : String)
deriving DecidableEq

deriving instance DecidableEq for Except

/-- `errors.IsAlreadyExists`. -/
def isAlreadyExistsErr : GoErr → Bool
  | GoErr.alreadyExists _ => true
  | _ => false

/-- Render a `GoErr` the way `fmt`'s `%v` renders the corresponding Go error. -/
def goErrMsg : GoErr → String
  | GoErr.alreadyExists n => n ++ " already exists"
  | GoErr.notFound n => n ++ " not found"
  | GoErr.apiErr m => m

/-- `crdv1.VolumeSnapshotDataSpec` as populated by
`createSnapAndDataObjects` (groupsnapshot.go:511-519): the
`VolumeSnapshotRef` (kind/name/namespace; the empty `PersistentVolumeRef` is
constant and omitted) and the driver's `VolumeSnapshotDataSource` payload. -/
structure VolumeSnapshotDataSpec where
  volumeSnapshotRefKind : String
  volumeSnapshotRefName : String
  volumeSnapshotRefNamespace : String
  dataSource : String
deriving DecidableEq

/-- A stored `crdv1.VolumeSnapshotData` object.  Labels and annotations are
copied verbatim from the parent and never compared, so they are not
modelled. -/
structure VolumeSnapshotDataObj where
  name : String
  spec : VolumeSnapshotDataSpec
  /-- `Status.Conditions`: the singleton holding the record's last condition
  (`none` models the zero-valued condition used when the record has none). -/
  statusCondition : Option VolumeSnapshotCondition
deriving DecidableEq

/-- `crdv1.VolumeSnapshotSpec` as populated by `createSnapAndDataObjects`
(groupsnapshot.go:556-559). -/
structure VolumeSnapshotSpec where
  snapshotDataName : String
  persistentVolumeClaimName : String
deriving DecidableEq

/-- A stored `crdv1.VolumeSnapshot` object (owner references and
labels/annotations are copied verbatim and never compared; not modelled). -/
structure VolumeSnapshotObj where
  name : String
  ns : String
  spec : VolumeSnapshotSpec
  conditions : List VolumeSnapshotCondition
deriving DecidableEq

/-- `reflect.DeepEqual` applied to two values of the *same* Go type
`VolumeSnapshotDataSpec` is structural equality. -/
def deepEqualDataSpecs (a b : VolumeSnapshotDataSpec) : Bool := a == b

/-- `reflect.DeepEqual` applied to a `VolumeSnapshotDataSpec` and a
`VolumeSnapshotSpec`: distinct Go types, so it is false for every pair of
values.  (`replaceSnapshot`, groupsnapshot.go:452, performs exactly this
cross-type comparison: `s` is the fetched VolumeSnapshotData, `snap` the
desired VolumeSnapshot.) -/
def deepEqualDataSpecSnapSpec (_ : VolumeSnapshotDataSpec)
    (_ : VolumeSnapshotSpec) : Bool := false

/-- The API server's state for the derived objects.  `VolumeSnapshotData` is
cluster-scoped (keyed by name); `VolumeSnapshot` is namespaced. -/
structure Store where
  datas : List VolumeSnapshotDataObj
  snaps : List VolumeSnapshotObj
deriving DecidableEq

def emptyStore : Store := { datas := [], snaps := [] }

def findDataObj (l : List VolumeSnapshotDataObj) (name : String) :
    Option VolumeSnapshotDataObj :=
  l.find? (fun o => o.name == name)

def removeDataObj (l : List VolumeSnapshotDataObj) (name : String) :
    List VolumeSnapshotDataObj :=
  l.filter (fun o => !(o.name == name))

def findSnapObj (l : List VolumeSnapshotObj) (ns name : String) :
    Option VolumeSnapshotObj :=
  l.find? (fun o => o.ns == ns && o.name == name)

def removeSnapObj (l : List VolumeSnapshotObj) (ns name : String) :
    List VolumeSnapshotObj :=
  l.filter (fun o => !(o.ns == ns && o.name == name))

/-- Injected API faults, keyed by object name (and by attempt number for the
snapshot deletes retried inside `revertSnapObjs`).  `none` everywhere gives
plain API-server behaviour. -/
structure Faults where
  createDataFault : String → Option String
  getDataFault : String → Option String
  deleteDataFault : String → Option String
  createSnapFault : String → Option String
  deleteSnapFault : String → Nat → Option String

/-- The fault-free API. -/
def noFaults : Faults :=
  { createDataFault := fun _ => none
    getDataFault := fun _ => none
    deleteDataFault := fun _ => none
    createSnapFault := fun _ => none
    deleteSnapFault := fun _ _ => none }

/-- `k8sextops.Instance().CreateSnapshotData`. -/
def storeCreateSnapshotData (f : Faults) (d : VolumeSnapshotDataObj)
    (st : Store) : Except GoErr Unit × Store :=
  match f.createDataFault d.name with
  | some m => (Except.error (GoErr.apiErr m), st)
  | none =>
    match findDataObj st.datas d.name with
    | some _ => (Except.error (GoErr.alreadyExists d.name), st)
    | none => (Except.ok (), { st with datas := st.datas ++ [d] })

/-- `k8sextops.Instance().GetSnapshotData`. -/
def storeGetSnapshotData (f : Faults) (name : String) (st : Store) :
    Except GoErr VolumeSnapshotDataObj × Store :=
  match f.getDataFault name with
  | some m => (Except.error (GoErr.apiErr m), st)
  | none =>
    match findDataObj st.datas name with
    | some d => (Except.ok d, st)
    | none => (Except.error (GoErr.notFound name), st)

/-- `k8sextops.Instance().DeleteSnapshotData`. -/
def storeDeleteSnapshotData (f : Faults) (name : String) (st : Store) :
    Except GoErr Unit × Store :=
  match f.deleteDataFault name with
  | some m => (Except.error (GoErr.apiErr m), st)
  | none =>
    match findDataObj st.datas name with
    | some _ => (Except.ok (), { st with datas := removeDataObj st.datas name })
    | none => (Except.error (GoErr.notFound name), st)

/-- `k8sextops.Instance().CreateSnapshot`. -/
def storeCreateSnapshot (f : Faults) (s : VolumeSnapshotObj) (st : Store) :
    Except GoErr Unit × Store :=
  match f.createSnapFault s.name with
  | some m => (Except.error (GoErr.apiErr m), st)
  | none =>
    match findSnapObj st.snaps s.ns s.name with
    | some _ => (Except.error (GoErr.alreadyExists s.name), st)
    | none => (Except.ok (), { st with snaps := st.snaps ++ [s] })

/-- `k8sextops.Instance().DeleteSnapshot`, with the attempt number of the
surrounding backoff loop threaded through for fault injection. -/
def storeDeleteSnapshotAttempt (f : Faults) (name ns : String) (attempt : Nat)
    (st : Store) : Except GoErr Unit × Store :=
  match f.deleteSnapFault name attempt with
  | some m => (Except.error (GoErr.apiErr m), st)
  | none =>
    match findSnapObj st.snaps ns name with
    | some _ => (Except.ok (), { st with snaps := removeSnapObj st.snaps ns name })
    | none => (Except.error (GoErr.notFound name), st)

/-- `replaceSnapshotData` (groupsnapshot.go:423-441): fetch the existing
VolumeSnapshotData; if its spec differs from the desired one, delete and
re-create it, else leave it alone. -/
def replaceSnapshotData (f : Faults) (snapData : VolumeSnapshotDataObj)
    (st : Store) : Except GoErr Unit × Store :=
  match storeGetSnapshotData f snapData.name st with
  | (Except.error e, st1) => (Except.error e, st1)
  | (Except.ok data, st1) =>
    if !(deepEqualDataSpecs data.spec snapData.spec) then
      match storeDeleteSnapshotData f snapData.name st1 with
      | (Except.error e, st2) => (Except.error e, st2)
      | (Except.ok _, st2) =>
        match storeCreateSnapshotData f snapData st2 with
        | (Except.error e, st3) => (Except.error e, st3)
        | (Except.ok _, st3) => (Except.ok (), st3)
    else (Except.ok (), st1)

/-- `replaceSnapshot` (groupsnapshot.go:443-461), translated exactly as
written: it fetches the VolumeSnapshot**Data** under the snapshot's name,
compares that data object's spec against the snapshot's spec with
`reflect.DeepEqual` (two different Go types, hence always unequal), deletes
the snapshot **data** object and then creates the snapshot. -/
def replaceSnapshot (f : Faults) (snap : VolumeSnapshotObj) (st : Store) :
    Except GoErr Unit × Store :=
  match storeGetSnapshotData f snap.name st with
  | (Except.error e, st1) => (Except.error e, st1)
  | (Except.ok s, st1) =>
    if !(deepEqualDataSpecSnapSpec s.spec snap.spec) then
      match storeDeleteSnapshotData f snap.name st1 with
      | (Except.error e, st2) => (Except.error e, st2)
      | (Except.ok _, st2) =>
        match storeCreateSnapshot f snap st2 with
        | (Except.error e, st3) => (Except.error e, st3)
        | (Except.ok _, st3) => (Except.ok (), st3)
    else (Except.ok (), st1)

/-! ## GroupVolumeSnapshot resource model -/

/-- `stork_api.GroupVolumeSnapshotStageType`.  The zero value of the Go string
type is the Initial stage. -/
inductive GroupVolumeSnapshotStageType
  | initial
  | preChecks
  | preSnapshot
  | snapshot
  | postSnapshot
  | final
deriving DecidableEq

/-- `stork_api.GroupVolumeSnapshotStatusType`. -/
inductive GroupVolumeSnapshotStatusType
  | statusInitial
  | pending
  | inProgress
  | successful
  | failed
deriving DecidableEq

/-- One `metav1.LabelSelectorRequirement` of `PVCSelector.MatchExpressions`
(only the presence of such clauses is ever inspected). -/
structure LabelSelectorRequirement where
  key : String
  operator : String
  values : List String
deriving DecidableEq

/-- `stork_api.PVCSelectorSpec` (`LabelSelector` part). -/
structure PVCSelector where
  matchLabels : List (String × String)
  matchExpressions : List LabelSelectorRequirement
deriving DecidableEq

/-- `stork_api.GroupVolumeSnapshotSpec`.  `MaxRetries` is a Go `int`. -/
structure GroupVolumeSnapshotSpec where
  pvcSelector : PVCSelector
  preExecRule : String
  postExecRule : String
  maxRetries : Int
  restoreNamespaces : List String
deriving DecidableEq

/-- `stork_api.GroupVolumeSnapshotStatus`. -/
structure GroupVolumeSnapshotStatus where
  stage : GroupVolumeSnapshotStageType
  status : GroupVolumeSnapshotStatusType
  numRetries : Int
  volumeSnapshots : List VolumeSnapshotStatus
deriving DecidableEq

/-- A `stork_api.GroupVolumeSnapshot` resource.  `deletionTimestamp` models
whether `DeletionTimestamp != nil`. -/
structure GroupVolumeSnapshot where
  name : String
  ns : String
  uid : String
  resourceVersion : String
  deletionTimestamp : Bool
  spec : GroupVolumeSnapshotSpec
  status : GroupVolumeSnapshotStatus
deriving DecidableEq

/-- `record.EventRecorder` event types. -/
inductive EventType
  | normal
  | warning
deriving DecidableEq

/-- One recorded Kubernetes event. -/
structure Event where
  etype : EventType
  reason : String
  message : String
deriving DecidableEq

/-- A warning event with reason `string(stork_api.GroupSnapshotFailed)` /
`string(storkapi.ApplicationRestoreStatusFailed)` (both are "Failed"). -/
def warnEvent (message : String) : Event :=
  { etype := EventType.warning, reason := "Failed", message := message }

/-- Calls issued to the volume driver. -/
inductive DriverCall
  | createGroupSnapshot
  | getGroupSnapshotStatus
  | inspectVolume (volID : String)
  | deleteGroupSnapshot
deriving DecidableEq

/-- `volumeSnapshotFactor` (groupsnapshot.go:46): the backoff multiplies the
delay by 1 at each step, i.e. a fixed delay. -/
def snapDeleteBackoffFactor : Nat := 1

/-- `volumeSnapshotSteps` (groupsnapshot.go:47): at most 60 attempts. -/
def snapDeleteBackoffSteps : Nat := 60

/-- Outcome of one object's bounded-backoff delete inside `revertSnapObjs`. -/
structure RevertEntry where
  name : String
  attempts : Nat
  deleted : Bool
deriving DecidableEq

/-- `wait.ExponentialBackoff(snapDeleteBackoff, ...)` around
`DeleteSnapshot` (groupsnapshot.go:601-609): retry the delete until it
succeeds or the step budget is exhausted; a failed attempt is logged and
retried.  Wall-clock delay is not modelled.  Returns the store, the number of
attempts made, and whether some attempt succeeded. -/
def revertDeleteRetry (f : Faults) (name ns : String) :
    Nat → Nat → Store → Store × Nat × Bool
  | 0, _, st => (st, 0, false)
  | Nat.succ steps, attempt, st =>
    match storeDeleteSnapshotAttempt f name ns attempt st with
    | (Except.ok _, st1) => (st1, 1, true)
    | (Except.error _, st1) =>
      let r := revertDeleteRetry f name ns steps (attempt + 1) st1
      (r.fst, r.snd.fst + 1, r.snd.snd)

/-- Loop of `revertSnapObjs` over the created snapshot objects. -/
def revertLoop (f : Faults) : List VolumeSnapshotObj → Store →
    Store × List RevertEntry
  | [], st => (st, [])
  | snap :: rest, st =>
    let r := revertDeleteRetry f snap.name snap.ns snapDeleteBackoffSteps 0 st
    let rr := revertLoop f rest r.fst
    (rr.fst, { name := snap.name, attempts := r.snd.fst,
               deleted := r.snd.snd } :: rr.snd)

/-- `revertSnapObjs` (groupsnapshot.go:593-626): best-effort deletion of the
given snapshot objects with bounded fixed-delay backoff; objects whose delete
never succeeds are collected and logged (`failedDeletions`), nothing is
returned to the caller. -/
def revertSnapObjs (f : Faults) (snapObjs : List VolumeSnapshotObj)
    (st : Store) : Store × List RevertEntry :=
  match snapObjs with
  | [] => (st, [])
  | _ => revertLoop f snapObjs st

/-- Oracle environment for the group snapshot controller: results of the
collaborator calls a reconciliation may make. -/
structure GSEnv where
  /-- `getPVCNameFromVolumeID` (groupsnapshot.go:629-649): resolves a volume
  ID to the claim name via `InspectVolume` + PV + PVC lookups, falling back
  to the volume ID itself on any lookup error; every path returns a nil
  error, so it is a total function. -/
  resolvePVC : String → String
  faults : Faults
  /-- `k8sutils.GetPVCsForGroupSnapshot` outcome. -/
  getPVCsErr : Option String
  /-- `storkops.Instance().GetRule` outcome, per rule name. -/
  getRuleErr : String → Option String
  /-- `rule.ExecuteRule` outcome for the pre-snapshot rule. -/
  executeRulePreErr : Option String
  /-- `rule.ExecuteRule` outcome for the post-snapshot rule. -/
  executeRulePostErr : Option String
  /-- `storkops.Instance().GetGroupSnapshot` re-fetch after the pre rule. -/
  refreshPre : Except String GroupVolumeSnapshot
  /-- `storkops.Instance().GetGroupSnapshot` re-fetch after the post rule. -/
  refreshPost : Except String GroupVolumeSnapshot
  /-- `CreateGroupSnapshot` / `GetGroupSnapshotStatus` driver response:
  the per-volume records, or a driver error. -/
  driverResponse : Except String (List VolumeSnapshotStatus)
  /-- `handleFinal` (groupsnapshot.go:687-731) collapsed to the error it
  returns; its child-annotation upkeep touches no state the claims consult. -/
  handleFinalErr : Option String
  /-- `volDriver.DeleteGroupSnapshot` outcome. -/
  deleteGroupSnapshotErr : Option String
  /-- `client.Update` outcome for the group snapshot CRD. -/
  updateErr : Option String

/-- Result of `createSnapAndDataObjects`. -/
structure CsdoResult where
  res : Except GoErr (List VolumeSnapshotStatus)
  store : Store
  /-- `InspectVolume` driver calls made while resolving claim names. -/
  calls : List DriverCall
  /-- Per-object outcome of the compensation deletes in `revertSnapObjs`. -/
  revertLog : List RevertEntry
  /-- The logged (never returned) error of the rollback
  `DeleteSnapshotData` call, if that delete failed. -/
  dataRollbackErr : Option GoErr

/-- Loop body of `createSnapAndDataObjects` (groupsnapshot.go:486-588),
one iteration per per-volume record.  On a snapshot-object creation failure
(after `replaceSnapshot` if the error was AlreadyExists) the paired data
object is deleted (failure logged only), every snapshot object created
earlier in this batch is reverted, and the primary error is returned.
`snap, err = CreateSnapshot(snap)` reassigns `snap` to the API result; on
the error path we keep the desired object (the choice most favourable to
idempotence), which changes nothing that the claims consult. -/
def csdoLoop (env : GSEnv) (parentName parentNamespace parentUUID : String) :
    List VolumeSnapshotObj → List VolumeSnapshotStatus →
      List VolumeSnapshotStatus → Store → CsdoResult
  | _, updatedStatuses, [], st =>
    { res := Except.ok updatedStatuses, store := st, calls := [],
      revertLog := [], dataRollbackErr := none }
  | createSnapObjects, updatedStatuses, snapshot :: rest, st =>
    let parentPVCOrVolID := env.resolvePVC snapshot.parentVolumeID
    let volumeSnapshotName :=
      parentName ++ "-" ++ parentPVCOrVolID ++ "-" ++ parentUUID
    let snapData : VolumeSnapshotDataObj :=
      { name := volumeSnapshotName
        spec :=
          { volumeSnapshotRefKind := "VolumeSnapshot"
            volumeSnapshotRefName := volumeSnapshotName
            volumeSnapshotRefNamespace := parentNamespace
            dataSource := snapshot.dataSource }
        statusCondition := snapshot.conditions.getLast? }
    let cd := storeCreateSnapshotData env.faults snapData st
    let dataStep : Except GoErr Unit × Store :=
      match cd with
      | (Except.ok _, st1) => (Except.ok (), st1)
      | (Except.error e, st1) =>
        if isAlreadyExistsErr e then replaceSnapshotData env.faults snapData st1
        else (Except.error e, st1)
    match dataStep with
    | (Except.error e, st2) =>
      { res := Except.error (GoErr.apiErr
          ("error creating the VolumeSnapshotData for snap " ++
            volumeSnapshotName ++ " due to err: " ++ goErrMsg e))
        store := st2
        calls := [DriverCall.inspectVolume snapshot.parentVolumeID]
        revertLog := [], dataRollbackErr := none }
    | (Except.ok _, st2) =>
      let snap : VolumeSnapshotObj :=
        { name := volumeSnapshotName
          ns := parentNamespace
          spec :=
            { snapshotDataName := volumeSnapshotName
              persistentVolumeClaimName := parentPVCOrVolID }
          conditions := snapshot.conditions }
      let cs := storeCreateSnapshot env.faults snap st2
      let snapStep : Except GoErr Unit × Store :=
        match cs with
        | (Except.ok _, st3) => (Except.ok (), st3)
        | (Except.error e, st3) =>
          if isAlreadyExistsErr e then replaceSnapshot env.faults snap st3
          else (Except.error e, st3)
      match snapStep with
      | (Except.error e, st4) =>
        let dd := storeDeleteSnapshotData env.faults volumeSnapshotName st4
        let rv := revertSnapObjs env.faults createSnapObjects dd.snd
        { res := Except.error e, store := rv.fst
          calls := [DriverCall.inspectVolume snapshot.parentVolumeID]
          revertLog := rv.snd
          dataRollbackErr :=
            match dd.fst with
            | Except.error de => some de
            | Except.ok _ => none }
      | (Except.ok _, st4) =>
        let r := csdoLoop env parentName parentNamespace parentUUID
          (createSnapObjects ++ [snap])
          (updatedStatuses ++ [{ snapshot with
            volumeSnapshotName := volumeSnapshotName }])
          rest st4
        { r with calls :=
            DriverCall.inspectVolume snapshot.parentVolumeID :: r.calls }

/-- `createSnapAndDataObjects` (groupsnapshot.go:463-591).  The restore
namespaces are only joined into an annotation copied onto the children and
never compared; annotations are not modelled. -/
def GroupSnapshotController.createSnapAndDataObjects (env : GSEnv)
    (groupSnap : GroupVolumeSnapshot) (snapshots : List VolumeSnapshotStatus)
    (st : Store) : CsdoResult :=
  let parentNamespace := if groupSnap.ns == "" then "default" else groupSnap.ns
  csdoLoop env groupSnap.name parentNamespace groupSnap.uid [] [] snapshots st

/-! ## Group snapshot stage handlers -/

/-- Result triple of `handleSnap`: the (possibly mutated) group snapshot,
the `updateCrd` flag, the returned error, plus the store, the driver calls
made and the events recorded inside the handler. -/
structure HandleSnapOut where
  gs : GroupVolumeSnapshot
  updateFlag : Bool
  err : Option String
  store : Store
  calls : List DriverCall
  events : List Event

/-- `handleInitial` (groupsnapshot.go:249-303).  Returns the mutated
resource, the update flag and the error.  Note that a failing
`matchLabels` check *overwrites* any error from the `matchExpressions`
check, exactly as in the source. -/
def GroupSnapshotController.handleInitial (env : GSEnv)
    (groupSnap : GroupVolumeSnapshot) :
    GroupVolumeSnapshot × Bool × Option String :=
  let err0 : Option String :=
    if groupSnap.spec.pvcSelector.matchExpressions.length > 0 then
      some "matchExpressions are currently not supported in the spec. Use matchLabels"
    else none
  let err1 : Option String :=
    if groupSnap.spec.pvcSelector.matchLabels.length == 0 then
      some "matchLabels are required for group snapshots. Refer to spec examples"
    else err0
  match err1 with
  | some e =>
    ({ groupSnap with status := { groupSnap.status with
        status := GroupVolumeSnapshotStatusType.failed
        stage := GroupVolumeSnapshotStageType.final } }, true, some e)
  | none =>
    match env.getPVCsErr with
    | some e =>
      if groupSnap.status.status == GroupVolumeSnapshotStatusType.pending then
        (groupSnap, false, some e)
      else
        ({ groupSnap with status := { groupSnap.status with
            status := GroupVolumeSnapshotStatusType.pending
            stage := GroupVolumeSnapshotStageType.preChecks } }, true, some e)
    | none =>
      let preSnapRuleName := groupSnap.spec.preExecRule
      match (if preSnapRuleName.length > 0 then env.getRuleErr preSnapRuleName
             else none) with
      | some e => (groupSnap, false, some e)
      | none =>
        let postSnapRuleName := groupSnap.spec.postExecRule
        match (if postSnapRuleName.length > 0 then
                env.getRuleErr postSnapRuleName else none) with
        | some e => (groupSnap, false, some e)
        | none =>
          let stage :=
            if preSnapRuleName.length > 0 then
              GroupVolumeSnapshotStageType.preSnapshot
            else GroupVolumeSnapshotStageType.snapshot
          ({ groupSnap with status := { groupSnap.status with
              status := GroupVolumeSnapshotStatusType.inProgress
              stage := stage } }, true, none)

/-- `handlePreSnap` (groupsnapshot.go:305-344).  The background-command
termination channel is in-process concurrency and is not modelled.  On error
the caller keeps the original resource (source: `if err == nil`). -/
def GroupSnapshotController.handlePreSnap (env : GSEnv)
    (groupSnap : GroupVolumeSnapshot) :
    Option GroupVolumeSnapshot × Bool × Option String :=
  let ruleName := groupSnap.spec.preExecRule
  if ruleName.length == 0 then
    (some { groupSnap with status := { groupSnap.status with
        status := GroupVolumeSnapshotStatusType.inProgress
        stage := GroupVolumeSnapshotStageType.snapshot } }, true, none)
  else
    match env.getRuleErr ruleName with
    | some e => (none, false, some e)
    | none =>
      match env.executeRulePreErr with
      | some e => (none, false, some e)
      | none =>
        match env.refreshPre with
        | Except.error e => (none, false, some e)
        | Except.ok refreshed =>
          (some { refreshed with status := { refreshed.status with
              stage := GroupVolumeSnapshotStageType.snapshot } }, true, none)

/-- `handlePostSnap` (groupsnapshot.go:651-685). -/
def GroupSnapshotController.handlePostSnap (env : GSEnv)
    (groupSnap : GroupVolumeSnapshot) :
    Option GroupVolumeSnapshot × Bool × Option String :=
  let ruleName := groupSnap.spec.postExecRule
  if ruleName.length == 0 then
    let newStatus :=
      if groupSnap.status.status != GroupVolumeSnapshotStatusType.failed then
        GroupVolumeSnapshotStatusType.successful
      else groupSnap.status.status
    (some { groupSnap with status := { groupSnap.status with
        status := newStatus
        stage := GroupVolumeSnapshotStageType.final } }, true, none)
  else
    match env.getRuleErr ruleName with
    | some e => (none, false, some e)
    | none =>
      match env.executeRulePostErr with
      | some e => (none, false, some e)
      | none =>
        match env.refreshPost with
        | Except.error e => (none, false, some e)
        | Except.ok refreshed =>
          let newStatus :=
            if refreshed.status.status != GroupVolumeSnapshotStatusType.failed then
              GroupVolumeSnapshotStatusType.successful
            else refreshed.status.status
          (some { refreshed with status := { refreshed.status with
              status := newStatus
              stage := GroupVolumeSnapshotStageType.final } }, true, none)

/-- `handleSnap` (groupsnapshot.go:346-421). -/
def GroupSnapshotController.handleSnap (env : GSEnv) (st : Store)
    (groupSnap : GroupVolumeSnapshot) : HandleSnapOut :=
  let call :=
    if groupSnap.status.volumeSnapshots.length > 0 then
      DriverCall.getGroupSnapshotStatus
    else DriverCall.createGroupSnapshot
  match env.driverResponse with
  | Except.error e =>
    { gs := groupSnap, updateFlag := false, err := some e, store := st,
      calls := [call], events := [] }
  | Except.ok snapshots =>
    if snapshots.length == 0 then
      { gs := groupSnap, updateFlag := false
        err := some "group snapshot call returned 0 snapshots in response from driver"
        store := st, calls := [call], events := [] }
    else
      let failedCheck := isAnySnapshotFailed snapshots
      if failedCheck.fst then
        let errMsg0 := "Some snapshots in group have failed: " ++
          String.intercalate " " failedCheck.snd
        if groupSnap.status.numRetries < groupSnap.spec.maxRetries then
          let newRetries := groupSnap.status.numRetries + 1
          let msg := errMsg0 ++ ". Resetting group snapshot for retry: " ++
            toString newRetries
          -- response.Snapshots = nil, stage Snapshot, status Pending
          { gs := { groupSnap with status := { groupSnap.status with
                numRetries := newRetries
                volumeSnapshots := []
                status := GroupVolumeSnapshotStatusType.pending
                stage := GroupVolumeSnapshotStageType.snapshot } }
            updateFlag := true, err := none, store := st, calls := [call]
            events := [warnEvent msg] }
        else
          let msg :=
            if groupSnap.spec.maxRetries == 0 then
              errMsg0 ++ ". Failing the groupsnapshot as retries are not enabled"
            else
              errMsg0 ++ ". Failing the groupsnapshot as all " ++
                toString groupSnap.spec.maxRetries ++ " retries are exhausted"
          -- even though failed, post rules still run: stage PostSnapshot
          { gs := { groupSnap with status := { groupSnap.status with
                volumeSnapshots := snapshots
                status := GroupVolumeSnapshotStatusType.failed
                stage := GroupVolumeSnapshotStageType.postSnapshot } }
            updateFlag := true, err := none, store := st, calls := [call]
            events := [warnEvent msg] }
      else if areAllSnapshotsDone snapshots then
        let c := GroupSnapshotController.createSnapAndDataObjects env
          groupSnap snapshots st
        match c.res with
        | Except.error e =>
          { gs := groupSnap, updateFlag := false, err := some (goErrMsg e),
            store := c.store, calls := call :: c.calls, events := [] }
        | Except.ok updated =>
          { gs := { groupSnap with status := { groupSnap.status with
                volumeSnapshots := updated
                status := GroupVolumeSnapshotStatusType.inProgress
                stage := GroupVolumeSnapshotStageType.postSnapshot } }
            updateFlag := true, err := none, store := c.store
            calls := call :: c.calls, events := [] }
      else
        { gs := { groupSnap with status := { groupSnap.status with
              volumeSnapshots := snapshots
              status := GroupVolumeSnapshotStatusType.inProgress
              stage := GroupVolumeSnapshotStageType.snapshot } }
          updateFlag := true, err := none, store := st, calls := [call]
          events := [] }

/-! ## Group snapshot `handle` -/

/-- Outcome of the version-floor gate at the top of `handle`
(groupsnapshot.go:139-168). -/
inductive GateResult
  | gateParseErr (msg : String)
  | gateSkip
  | gateProceed
deriving DecidableEq

/-- Replace (or add) the value under a key in the resource-version floor
map. -/
def setKey (l : List (String × String)) (k v : String) :
    List (String × String) :=
  match l with
  | [] => [(k, v)]
  | (k', v') :: rest =>
    if k' == k then (k, v) :: rest else (k', v') :: setKey rest k v

/-- `delete(map, key)` on the resource-version floor map. -/
def eraseKey (l : List (String × String)) (k : String) :
    List (String × String) :=
  l.filter (fun p => !(p.fst == k))

/-- The version-floor gate of `handle` (groupsnapshot.go:139-168): when a
floor is recorded for the resource's UID, parse the floor and the incoming
resource version; a parse failure is an error, an incoming version strictly
below the floor skips the event, anything else proceeds. -/
def versionFloorGate (minResourceVersions : List (String × String))
    (groupSnapshot : GroupVolumeSnapshot) : GateResult :=
  match List.lookup groupSnapshot.uid minResourceVersions with
  | none => GateResult.gateProceed
  | some minVer =>
    match newVersion minVer with
    | none => GateResult.gateParseErr ("Malformed version: " ++ minVer)
    | some minVersion =>
      match newVersion groupSnapshot.resourceVersion with
      | none =>
        GateResult.gateParseErr
          ("Malformed version: " ++ groupSnapshot.resourceVersion)
      | some snapVersion =>
        if segmentsLess snapVersion minVersion then GateResult.gateSkip
        else GateResult.gateProceed

/-- Result of the stage switch inside `handle`
(groupsnapshot.go:170-204). -/
structure GSDispatch where
  gs : GroupVolumeSnapshot
  updateFlag : Bool
  err : Option String
  calls : List DriverCall
  store : Store
  events : List Event
  /-- `case Final` returns `handleFinal`'s error directly, bypassing both the
  event emission and the CRD update below the switch. -/
  isFinalReturn : Bool

/-- The stage switch of `handle` (groupsnapshot.go:170-204).  The
background-channel signalling in the Snapshot case is in-process concurrency
and is not modelled. -/
def GroupSnapshotController.dispatchStage (env : GSEnv) (st : Store)
    (groupSnapshot : GroupVolumeSnapshot) : GSDispatch :=
  match groupSnapshot.status.stage with
  | GroupVolumeSnapshotStageType.initial
  | GroupVolumeSnapshotStageType.preChecks =>
    let r := GroupSnapshotController.handleInitial env groupSnapshot
    { gs := r.fst, updateFlag := r.snd.fst, err := r.snd.snd, calls := [],
      store := st, events := [], isFinalReturn := false }
  | GroupVolumeSnapshotStageType.preSnapshot =>
    let r := GroupSnapshotController.handlePreSnap env groupSnapshot
    { gs := (match r.fst with | some g => g | none => groupSnapshot)
      updateFlag := r.snd.fst, err := r.snd.snd, calls := [], store := st,
      events := [], isFinalReturn := false }
  | GroupVolumeSnapshotStageType.snapshot =>
    let r := GroupSnapshotController.handleSnap env st groupSnapshot
    { gs := r.gs, updateFlag := r.updateFlag, err := r.err, calls := r.calls,
      store := r.store, events := r.events, isFinalReturn := false }
  | GroupVolumeSnapshotStageType.postSnapshot =>
    let r := GroupSnapshotController.handlePostSnap env groupSnapshot
    { gs := (match r.fst with | some g => g | none => groupSnapshot)
      updateFlag := r.snd.fst, err := r.snd.snd, calls := [], store := st,
      events := [], isFinalReturn := false }
  | GroupVolumeSnapshotStageType.final =>
    { gs := groupSnapshot, updateFlag := false, err := env.handleFinalErr,
      calls := [], store := st, events := [], isFinalReturn := true }

/-- Full outcome of one `handle` invocation. -/
structure GSHandleOutcome where
  /-- The in-memory resource after the handler ran (the durable copy changes
  only when `persisted` is true). -/
  gs : GroupVolumeSnapshot
  events : List Event
  driverCalls : List DriverCall
  store : Store
  minVers : List (String × String)
  /-- Whether `client.Update(groupSnapshot)` was executed successfully. -/
  persisted : Bool
  /-- Whether the stage switch ran (false when the gate skipped the event or
  the delete path was taken). -/
  stageHandlerRan : Bool
  ret : Option String

/-- `handle` (groupsnapshot.go:123-230).  The delete path
(`DeletionTimestamp != nil`) drops the version floor, asks the driver to
delete the group snapshot and removes the finalizer; the non-delete path runs
the version-floor gate, dispatches on the stage, and on a handler error emits
a warning event and returns the error *before* any CRD update; only a
successful error-free update bumps the recorded floor. -/
def GroupSnapshotController.handle (env : GSEnv) (st : Store)
    (minVers : List (String × String))
    (groupSnapshot : GroupVolumeSnapshot) : GSHandleOutcome :=
  if groupSnapshot.deletionTimestamp then
    let minVers1 := eraseKey minVers groupSnapshot.uid
    match env.deleteGroupSnapshotErr with
    | some e =>
      { gs := groupSnapshot, events := [],
        driverCalls := [DriverCall.deleteGroupSnapshot], store := st,
        minVers := minVers1, persisted := false, stageHandlerRan := false,
        ret := some ("cleanup: " ++ e) }
    | none =>
      { gs := groupSnapshot, events := [],
        driverCalls := [DriverCall.deleteGroupSnapshot], store := st,
        minVers := minVers1, persisted := false, stageHandlerRan := false,
        ret := env.updateErr }
  else
    match versionFloorGate minVers groupSnapshot with
    | GateResult.gateParseErr e =>
      { gs := groupSnapshot, events := [warnEvent e], driverCalls := [],
        store := st, minVers := minVers, persisted := false,
        stageHandlerRan := false, ret := some e }
    | GateResult.gateSkip =>
      { gs := groupSnapshot, events := [], driverCalls := [], store := st,
        minVers := minVers, persisted := false, stageHandlerRan := false,
        ret := none }
    | GateResult.gateProceed =>
      let d := GroupSnapshotController.dispatchStage env st groupSnapshot
      if d.isFinalReturn then
        { gs := d.gs, events := d.events, driverCalls := d.calls,
          store := d.store, minVers := minVers, persisted := false,
          stageHandlerRan := true, ret := d.err }
      else
        match d.err with
        | some e =>
          { gs := d.gs, events := d.events ++ [warnEvent e],
            driverCalls := d.calls, store := d.store, minVers := minVers,
            persisted := false, stageHandlerRan := true, ret := some e }
        | none =>
          if d.updateFlag then
            match env.updateErr with
            | some ue =>
              { gs := d.gs, events := d.events, driverCalls := d.calls,
                store := d.store, minVers := minVers, persisted := false,
                stageHandlerRan := true, ret := some ue }
            | none =>
              { gs := d.gs, events := d.events, driverCalls := d.calls,
                store := d.store,
                minVers := setKey minVers groupSnapshot.uid
                  d.gs.resourceVersion,
                persisted := true, stageHandlerRan := true, ret := none }
          else
            { gs := d.gs, events := d.events, driverCalls := d.calls,
              store := d.store, minVers := minVers, persisted := false,
              stageHandlerRan := true, ret := none }

/-! ## ApplicationRestore resource model -/

/-- `storkapi.ApplicationRestoreStatusType`. -/
inductive ApplicationRestoreStatusType
  | statusInitial
  | pending
  | inProgress
  | successful
  | partialSuccess
  | failed
  | retained
deriving DecidableEq

/-- `storkapi.ApplicationRestoreStageType`. -/
inductive ApplicationRestoreStageType
  | initial
  | volumes
  | applications
  | final
deriving DecidableEq

/-- `storkapi.ApplicationRestoreReplacePolicyType` after `setDefaults`
normalised the empty value to Retain. -/
inductive ReplacePolicy
  | retain
  | delete
deriving DecidableEq

/-- `storkapi.ApplicationRestoreVolumeInfo`: one per-volume restore record. -/
structure ApplicationRestoreVolumeInfo where
  sourceVolume : String
  restoreVolume : String
  driverName : String
  status : ApplicationRestoreStatusType
  reason : String
  totalSize : Nat
deriving DecidableEq

/-- `storkapi.ApplicationRestoreResourceInfo`: one per-resource restore
record (group/version/kind/namespace/name plus outcome). -/
structure ApplicationRestoreResourceInfo where
  group : String
  version : String
  kind : String
  ns : String
  name : String
  status : ApplicationRestoreStatusType
  reason : String
deriving DecidableEq

/-- `storkapi.ApplicationRestoreStatus`. -/
structure ApplicationRestoreStatus where
  stage : ApplicationRestoreStageType
  status : ApplicationRestoreStatusType
  reason : String
  volumes : List ApplicationRestoreVolumeInfo
  resources : List ApplicationRestoreResourceInfo
  totalSize : Nat
deriving DecidableEq

/-- A `storkapi.ApplicationRestore` resource. -/
structure ApplicationRestore where
  name : String
  ns : String
  uid : String
  deletionTimestamp : Bool
  replacePolicy : ReplacePolicy
  backupName : String
  backupLocation : String
  status : ApplicationRestoreStatus
deriving DecidableEq

/-- The identity of an incoming `runtime.Unstructured` object as read by
`updateResourceStatus` (its GroupVersionKind plus metadata namespace and
name). -/
structure RestoreObject where
  group : String
  version : String
  kind : String
  ns : String
  name : String
deriving DecidableEq

/-- The record-matching test of `updateResourceStatus`
(applicationrestore.go:717-726): name, namespace, version and kind must be
equal, and the groups must be equal *or* the recorded group is "core" while
the incoming group is empty (the test is not symmetric). -/
def resourceMatches (resource : ApplicationRestoreResourceInfo)
    (o : RestoreObject) : Bool :=
  resource.name == o.name && resource.ns == o.ns &&
    (resource.group == o.group ||
      (resource.group == "core" && o.group == "")) &&
    resource.version == o.version && resource.kind == o.kind

/-- `updateResourceStatus` (applicationrestore.go:704-755): find the first
matching record and update its status and reason in place; if none matches,
append a fresh record carrying the incoming object's identity.  (The function
also emits an event; events of this helper are not consulted by any claim and
are omitted here.) -/
def updateResourceStatus (resources : List ApplicationRestoreResourceInfo)
    (o : RestoreObject) (status : ApplicationRestoreStatusType)
    (reason : String) : List ApplicationRestoreResourceInfo :=
  match resources with
  | [] =>
    [{ group := o.group, version := o.version, kind := o.kind, ns := o.ns,
       name := o.name, status := status, reason := reason }]
  | r :: rest =>
    if resourceMatches r o then
      { r with status := status, reason := reason } :: rest
    else
      r :: updateResourceStatus rest o status reason

/-- Result of `resourceCollector.ApplyResource` for one object. -/
inductive ApplyOutcome
  | applied
  | alreadyExists
  | applyErr (msg : String)
deriving DecidableEq

/-- One object reaching the apply loop of `applyResources`, together with the
oracle results of `PrepareResourceForApply` (`skip`) and `ApplyResource`. -/
structure ApplyObject where
  obj : RestoreObject
  skip : Bool
  applyResult : ApplyOutcome
deriving DecidableEq

/-- The reason recorded for an object left in place under the Retain policy
(applicationrestore.go:997). -/
def retainedReason : String :=
  "Resource restore skipped as it was already present and ReplacePolicy is set to Retain"

/-- The apply loop of `applyResources` (applicationrestore.go:957-1009):
apply each object; an AlreadyExists error under policy Retain marks the
object Retained (error swallowed), under policy Delete it stays an error;
any remaining error records the object as Failed; otherwise Successful.  The
loop always continues to the next object. -/
def applyLoop (policy : ReplacePolicy)
    (resources : List ApplicationRestoreResourceInfo) :
    List ApplyObject → List ApplicationRestoreResourceInfo
  | [] => resources
  | o :: rest =>
    match o.applyResult with
    | ApplyOutcome.applied =>
      applyLoop policy
        (updateResourceStatus resources o.obj
          ApplicationRestoreStatusType.successful
          "Resource restored successfully") rest
    | ApplyOutcome.alreadyExists =>
      match policy with
      | ReplacePolicy.delete =>
        applyLoop policy
          (updateResourceStatus resources o.obj
            ApplicationRestoreStatusType.failed
            ("Error applying resource: " ++ o.obj.name ++ " already exists"))
          rest
      | ReplacePolicy.retain =>
        applyLoop policy
          (updateResourceStatus resources o.obj
            ApplicationRestoreStatusType.retained retainedReason) rest
    | ApplyOutcome.applyErr m =>
      applyLoop policy
        (updateResourceStatus resources o.obj
          ApplicationRestoreStatusType.failed
          ("Error applying resource: " ++ m)) rest

/-- `applyResources` (applicationrestore.go:913-1011) restricted to its
record-keeping: objects skipped by `PrepareResourceForApply` are filtered
out, then the apply loop runs.  (The PV-name mapping and the pre-delete under
policy Delete are resource-collector calls that leave the status records
untouched.) -/
def ApplicationRestoreController.applyResources (policy : ReplacePolicy)
    (resources : List ApplicationRestoreResourceInfo)
    (objects : List ApplyObject) : List ApplicationRestoreResourceInfo :=
  applyLoop policy resources (objects.filter (fun o => !o.skip))

/-! ## ApplicationRestore stage handlers and `handle` -/

/-- The per-driver batch that `restoreVolumes` builds by grouping the
backup's volumes by driver name (applicationrestore.go:338-374; the grouping
itself only filters external backup data and is provided as an oracle
input), together with the oracle results of the collaborator calls made for
that driver. -/
structure DriverBatch where
  name : String
  /-- Collapsed outcome of `downloadResources`, `GetPreRestoreResources`,
  the pre-restore `applyResources` and the CSI pre-delete for this driver
  (applicationrestore.go:384-435): the error returned from `restoreVolumes`
  if any of them failed. -/
  preStepErr : Option String
  /-- `driver.StartRestore` result. -/
  startResult : Except String (List ApplicationRestoreVolumeInfo)

/-- Outcome of the status-poll section of `restoreVolumes`
(applicationrestore.go:465-552), provided as an oracle: the updated
resource, events, whether an update was persisted, and the returned error. -/
structure PollOutcome where
  restore : ApplicationRestore
  events : List Event
  persisted : Bool
  ret : Option String

/-- Oracle environment for the application restore controller. -/
structure AREnv where
  /-- `storkops.Instance().GetApplicationBackup` outcome. -/
  getBackupErr : Option String
  driverBatches : List DriverBatch
  pollPhase : ApplicationRestore → PollOutcome
  /-- `downloadResources` outcome in `restoreResources`. -/
  downloadErr : Option String
  /-- The objects reaching the apply loop (after download, CSI stripping and
  `PrepareResourceForApply`), with their apply results. -/
  applyObjects : List ApplyObject
  /-- The live CSI PV/PVC objects synthesised by `addCSIVolumeResources`. -/
  csiObjects : List RestoreObject
  /-- `client.Update` outcome for the restore CRD. -/
  updateErr : Option String
  /-- `setDefaults` outcome (errors only from fetching the backup). -/
  setDefaultsErr : Option String
  /-- `verifyNamespaces` outcome. -/
  verifyNamespacesErr : Option String
  /-- `driver.CancelRestore` outcome during cleanup. -/
  cancelErr : Option String

/-- Outcome of `restoreVolumes`. -/
structure RestoreVolumesOutcome where
  restore : ApplicationRestore
  /-- Driver names whose `StartRestore` was invoked, in call order. -/
  startCalls : List String
  events : List Event
  persisted : Bool
  ret : Option String

/-- The fresh-start driver loop of `restoreVolumes`
(applicationrestore.go:376-463): per driver run the pre-steps, then
`StartRestore`.  A start failure records a warning event, marks the whole
restore Failed with stage Final and reason, persists the status and returns
nil — the loop stops, no further driver is started.  When every driver
started, status becomes InProgress, is persisted, and control falls through
to the status-poll section. -/
def startLoop (env : AREnv) (restore : ApplicationRestore)
    (calls : List String) (evs : List Event) :
    List DriverBatch → RestoreVolumesOutcome
  | [] =>
    let r1 := { restore with status := { restore.status with
        status := ApplicationRestoreStatusType.inProgress } }
    match env.updateErr with
    | some e =>
      { restore := r1, startCalls := calls, events := evs, persisted := false,
        ret := some e }
    | none =>
      let p := env.pollPhase r1
      { restore := p.restore, startCalls := calls, events := evs ++ p.events,
        persisted := true, ret := p.ret }
  | d :: rest =>
    match d.preStepErr with
    | some e =>
      { restore := restore, startCalls := calls, events := evs,
        persisted := false, ret := some e }
    | none =>
      match d.startResult with
      | Except.error e =>
        let message := "Error starting Application Restore for volumes: " ++ e
        let r1 := { restore with status := { restore.status with
            status := ApplicationRestoreStatusType.failed
            stage := ApplicationRestoreStageType.final
            reason := message } }
        match env.updateErr with
        | some ue =>
          { restore := r1, startCalls := calls ++ [d.name],
            events := evs ++ [warnEvent message], persisted := false,
            ret := some ue }
        | none =>
          { restore := r1, startCalls := calls ++ [d.name],
            events := evs ++ [warnEvent message], persisted := true,
            ret := none }
      | Except.ok restoreVolumeInfos =>
        startLoop env
          { restore with status := { restore.status with
              volumes := restore.status.volumes ++ restoreVolumeInfos } }
          (calls ++ [d.name]) evs rest

/-- `restoreVolumes` (applicationrestore.go:331-553): enter the Volumes
stage; when no volume records exist yet, fetch the backup and run the
per-driver start loop; otherwise (or after all drivers started) the
status-poll section runs. -/
def ApplicationRestoreController.restoreVolumes (env : AREnv)
    (restore0 : ApplicationRestore) : RestoreVolumesOutcome :=
  let restore := { restore0 with status := { restore0.status with
      stage := ApplicationRestoreStageType.volumes } }
  if restore.status.volumes.isEmpty then
    match env.getBackupErr with
    | some e =>
      { restore := restore, startCalls := [], events := [], persisted := false,
        ret := some ("error getting backup spec for restore: " ++ e) }
    | none => startLoop env restore [] [] env.driverBatches
  else
    let p := env.pollPhase restore
    { restore := p.restore, startCalls := [], events := p.events,
      persisted := p.persisted, ret := p.ret }

/-- The final-status computation of `restoreResources`
(applicationrestore.go:1038-1048): stage Final, Successful, downgraded to
PartialSuccess when any resource record is not Successful. -/
def finalizeRestoreStatus (restore : ApplicationRestore) :
    ApplicationRestore :=
  let r1 := { restore with status := { restore.status with
      stage := ApplicationRestoreStageType.final
      status := ApplicationRestoreStatusType.successful
      reason := "Volumes and resources were restored up successfully" } }
  if r1.status.resources.any
      (fun resource =>
        resource.status != ApplicationRestoreStatusType.successful) then
    { r1 with status := { r1.status with
        status := ApplicationRestoreStatusType.partialSuccess
        reason := "Volumes were restored successfully. Some existing resources were not replaced" } }
  else r1

/-- `restoreResources` (applicationrestore.go:1013-1063): fetch the backup,
download the resources, apply them, compute the final status and append the
live CSI PV/PVC records, then persist. -/
def ApplicationRestoreController.restoreResources (env : AREnv)
    (restore : ApplicationRestore) :
    ApplicationRestore × Option String × Bool :=
  match env.getBackupErr with
  | some e => (restore, some e, false)
  | none =>
    match env.downloadErr with
    | some e => (restore, some e, false)
    | none =>
      let resources1 := ApplicationRestoreController.applyResources
        restore.replacePolicy restore.status.resources env.applyObjects
      let r1 := finalizeRestoreStatus
        { restore with status := { restore.status with
            resources := resources1 } }
      let r2 := { r1 with status := { r1.status with
          resources := env.csiObjects.foldl
            (fun rs o => updateResourceStatus rs o
              ApplicationRestoreStatusType.successful
              "Resource restored successfully")
            r1.status.resources } }
      match env.updateErr with
      | some e => (r2, some e, false)
      | none => (r2, none, true)

/-- Full outcome of one ApplicationRestore `handle` invocation. -/
structure ARHandleOutcome where
  restore : ApplicationRestore
  events : List Event
  startCalls : List String
  persisted : Bool
  ret : Option String

/-- `handle` (applicationrestore.go:220-291).  Unlike the group snapshot
controller, every stage-handler error is recorded as a warning event and
then *swallowed*: `handle` returns nil, so `Reconcile` reports success and
relies on the periodic requeue. -/
def ApplicationRestoreController.handle (env : AREnv)
    (restore : ApplicationRestore) : ARHandleOutcome :=
  if restore.deletionTimestamp then
    -- cleanup errors are only logged; the finalizer-removal update's error
    -- is returned
    { restore := restore, events := [], startCalls := [], persisted := false,
      ret := env.updateErr }
  else
    match env.setDefaultsErr with
    | some e =>
      { restore := restore, events := [warnEvent e], startCalls := [],
        persisted := false, ret := none }
    | none =>
      match env.verifyNamespacesErr with
      | some e =>
        { restore := restore, events := [warnEvent e], startCalls := [],
          persisted := false, ret := none }
      | none =>
        match restore.status.stage with
        | ApplicationRestoreStageType.initial
        | ApplicationRestoreStageType.volumes =>
          let o := ApplicationRestoreController.restoreVolumes env restore
          match o.ret with
          | some e =>
            { restore := o.restore
              events := o.events ++
                [warnEvent ("Error restoring volumes: " ++ e)]
              startCalls := o.startCalls, persisted := o.persisted,
              ret := none }
          | none =>
            { restore := o.restore, events := o.events,
              startCalls := o.startCalls, persisted := o.persisted,
              ret := none }
        | ApplicationRestoreStageType.applications =>
          let r := ApplicationRestoreController.restoreResources env restore
          match r.snd.fst with
          | some e =>
            { restore := r.fst
              events := [warnEvent ("Error restoring resources: " ++ e)]
              startCalls := [], persisted := r.snd.snd, ret := none }
          | none =>
            { restore := r.fst, events := [], startCalls := [],
              persisted := r.snd.snd, ret := none }
        | ApplicationRestoreStageType.final =>
          { restore := restore, events := [], startCalls := [],
            persisted := false, ret := none }

/-! ## String containment (Go `strings.Contains`) -/

/-- Whether `pat` is an initial run of `text`. -/
def charsLeadWith : List Char → List Char → Bool
  | [], _ => true
  | _ :: _, [] => false
  | a :: as, b :: bs => a == b && charsLeadWith as bs

/-- Whether `pat` occurs contiguously somewhere in `text`. -/
def charsHaveRun (pat : List Char) : List Char → Bool
  | [] => charsLeadWith pat []
  | b :: bs => charsLeadWith pat (b :: bs) || charsHaveRun pat bs

/-- Go `strings.Contains s pat`. -/
def strContains (s pat : String) : Bool :=
  charsHaveRun pat.data s.data

/-! ## Fixtures for concrete runs -/

/-- Fault-free, error-free collaborator environment for the group snapshot
controller. -/
def trivialGSEnv : GSEnv :=
  { resolvePVC := fun v => v
    faults := noFaults
    getPVCsErr := none
    getRuleErr := fun _ => none
    executeRulePreErr := none
    executeRulePostErr := none
    refreshPre := Except.error "unused"
    refreshPost := Except.error "unused"
    driverResponse := Except.ok []
    handleFinalErr := none
    deleteGroupSnapshotErr := none
    updateErr := none }

/-- An all-failed per-volume record: first condition Error/True. -/
def failedRecord : VolumeSnapshotStatus :=
  { parentVolumeID := "vol1", taskID := "task1", volumeSnapshotName := ""
    dataSource := "ds1"
    conditions := [{ ctype := VolumeSnapshotConditionType.error
                     status := ConditionStatus.conditionTrue
                     message := "snapshot failed" }] }

/-- Environment whose driver poll always reports the all-failed response. -/
def retryScenarioEnv : GSEnv :=
  { trivialGSEnv with driverResponse := Except.ok [failedRecord] }

/-- A group snapshot in the Snapshot stage with `MaxRetries = 2` and no
retries consumed yet. -/
def retryScenarioGS : GroupVolumeSnapshot :=
  { name := "gs1", ns := "ns1", uid := "uid1", resourceVersion := "1"
    deletionTimestamp := false
    spec := { pvcSelector := { matchLabels := [("app", "db")]
                               matchExpressions := [] }
              preExecRule := "", postExecRule := "", maxRetries := 2
              restoreNamespaces := [] }
    status := { stage := GroupVolumeSnapshotStageType.snapshot
                status := GroupVolumeSnapshotStatusType.inProgress
                numRetries := 0, volumeSnapshots := [] } }

/-- C1: when the driver response reports at least one failed per-volume
snapshot, `handleSnap` with retry budget left increments `numRetries` by one,
clears the per-volume records, stays in the Snapshot stage and reports
Pending; with the budget exhausted (including `MaxRetries = 0`) it moves to
PostSnapshot and reports Failed.  With `MaxRetries = 2` and three
consecutive all-failed responses the statuses are Pending, Pending, then
Failed at stage PostSnapshot, `numRetries` reaching 2 before the failure. -/
theorem handleSnap_failed_snapshots_retry_budget :
    (∀ (env : GSEnv) (st : Store) (gs : GroupVolumeSnapshot)
        (snapshots : List VolumeSnapshotStatus),
      env.driverResponse = Except.ok snapshots →
      (isAnySnapshotFailed snapshots).fst = true →
      ((gs.status.numRetries < gs.spec.maxRetries →
          (GroupSnapshotController.handleSnap env st gs).gs.status.numRetries
              = gs.status.numRetries + 1 ∧
          (GroupSnapshotController.handleSnap env st gs).gs.status.volumeSnapshots = [] ∧
          (GroupSnapshotController.handleSnap env st gs).gs.status.stage
              = GroupVolumeSnapshotStageType.snapshot ∧
          (GroupSnapshotController.handleSnap env st gs).gs.status.status
              = GroupVolumeSnapshotStatusType.pending) ∧
        (¬ gs.status.numRetries < gs.spec.maxRetries →
          (GroupSnapshotController.handleSnap env st gs).gs.status.stage
              = GroupVolumeSnapshotStageType.postSnapshot ∧
          (GroupSnapshotController.handleSnap env st gs).gs.status.status
              = GroupVolumeSnapshotStatusType.failed))) ∧
    ((GroupSnapshotController.handleSnap retryScenarioEnv emptyStore
        retryScenarioGS).gs.status.status
          = GroupVolumeSnapshotStatusType.pending ∧
      (GroupSnapshotController.handleSnap retryScenarioEnv emptyStore
        retryScenarioGS).gs.status.numRetries = 1 ∧
      (GroupSnapshotController.handleSnap retryScenarioEnv emptyStore
        (GroupSnapshotController.handleSnap retryScenarioEnv emptyStore
          retryScenarioGS).gs).gs.status.status
            = GroupVolumeSnapshotStatusType.pending ∧
      (GroupSnapshotController.handleSnap retryScenarioEnv emptyStore
        (GroupSnapshotController.handleSnap retryScenarioEnv emptyStore
          retryScenarioGS).gs).gs.status.numRetries = 2 ∧
      (GroupSnapshotController.handleSnap retryScenarioEnv emptyStore
        (GroupSnapshotController.handleSnap retryScenarioEnv emptyStore
          (GroupSnapshotController.handleSnap retryScenarioEnv emptyStore
            retryScenarioGS).gs).gs).gs.status.status
              = GroupVolumeSnapshotStatusType.failed ∧
      (GroupSnapshotController.handleSnap retryScenarioEnv emptyStore
        (GroupSnapshotController.handleSnap retryScenarioEnv emptyStore
          (GroupSnapshotController.handleSnap retryScenarioEnv emptyStore
            retryScenarioGS).gs).gs).gs.status.stage
              = GroupVolumeSnapshotStageType.postSnapshot) := by
  constructor
  · intro env st gs snapshots hresp hfail
    have hne : (snapshots.length == 0) = false := by
      cases snapshots with
      | nil => exact absurd hfail (by decide)
      | cons a l => simp
    constructor
    · intro hlt
      simp only [GroupSnapshotController.handleSnap, hresp, hne,
        Bool.false_eq_true, if_false, hfail, if_true, if_pos hlt]
      exact ⟨trivial, trivial, trivial, trivial⟩
    · intro hge
      simp only [GroupSnapshotController.handleSnap, hresp, hne,
        Bool.false_eq_true, if_false, hfail, if_true, if_neg hge]
      exact ⟨trivial, trivial⟩
  · exact ⟨by decide, by decide, by decide, by decide, by decide, by decide⟩

/-- Witness for C1: the general statement applied at the concrete scenario
input (budget left: first all-failed response yields Pending with
`numRetries` bumped to 1). -/
theorem handleSnap_failed_snapshots_retry_budget_witness :
    (GroupSnapshotController.handleSnap retryScenarioEnv emptyStore
        retryScenarioGS).gs.status.numRetries = 0 + 1 ∧
    (GroupSnapshotController.handleSnap retryScenarioEnv emptyStore
        retryScenarioGS).gs.status.volumeSnapshots = [] ∧
    (GroupSnapshotController.handleSnap retryScenarioEnv emptyStore
        retryScenarioGS).gs.status.stage
          = GroupVolumeSnapshotStageType.snapshot ∧
    (GroupSnapshotController.handleSnap retryScenarioEnv emptyStore
        retryScenarioGS).gs.status.status
          = GroupVolumeSnapshotStatusType.pending :=
  (handleSnap_failed_snapshots_retry_budget.1 retryScenarioEnv emptyStore
    retryScenarioGS [failedRecord] rfl (by decide)).1 (by decide)

/-- A healthy group snapshot in the Initial stage, used for the version-floor
scenario. -/
def floorScenarioGS : GroupVolumeSnapshot :=
  { name := "gs2", ns := "ns1", uid := "uid2", resourceVersion := "7"
    deletionTimestamp := false
    spec := { pvcSelector := { matchLabels := [("app", "db")]
                               matchExpressions := [] }
              preExecRule := "", postExecRule := "", maxRetries := 0
              restoreNamespaces := [] }
    status := { stage := GroupVolumeSnapshotStageType.initial
                status := GroupVolumeSnapshotStatusType.statusInitial
                numRetries := 0, volumeSnapshots := [] } }

/-- C2: with a recorded floor for the resource's UID, an incoming resource
version that parses strictly below the floor makes `handle` return without
running any stage handler, emitting no event and writing no update; a
version greater than or equal to the floor proceeds to the stage switch.
Concretely, with floor "5" version "3" is skipped and version "7" is
processed. -/
theorem handle_version_floor_gate :
    (∀ (env : GSEnv) (st : Store) (minVers : List (String × String))
        (gs : GroupVolumeSnapshot) (floor : String) (fv rv : List Nat),
      gs.deletionTimestamp = false →
      List.lookup gs.uid minVers = some floor →
      newVersion floor = some fv →
      newVersion gs.resourceVersion = some rv →
      ((segmentsLess rv fv = true →
          (GroupSnapshotController.handle env st minVers gs).gs = gs ∧
          (GroupSnapshotController.handle env st minVers gs).stageHandlerRan = false ∧
          (GroupSnapshotController.handle env st minVers gs).persisted = false ∧
          (GroupSnapshotController.handle env st minVers gs).ret = none ∧
          (GroupSnapshotController.handle env st minVers gs).events = [] ∧
          (GroupSnapshotController.handle env st minVers gs).store = st) ∧
        (segmentsLess rv fv = false →
          (GroupSnapshotController.handle env st minVers gs).stageHandlerRan = true))) ∧
    ((GroupSnapshotController.handle trivialGSEnv emptyStore
        [("uid2", "5")] { floorScenarioGS with resourceVersion := "3" }).stageHandlerRan = false ∧
      (GroupSnapshotController.handle trivialGSEnv emptyStore
        [("uid2", "5")] { floorScenarioGS with resourceVersion := "3" }).gs
          = { floorScenarioGS with resourceVersion := "3" } ∧
      (GroupSnapshotController.handle trivialGSEnv emptyStore
        [("uid2", "5")] { floorScenarioGS with resourceVersion := "3" }).persisted = false ∧
      (GroupSnapshotController.handle trivialGSEnv emptyStore
        [("uid2", "5")] floorScenarioGS).stageHandlerRan = true) := by
  constructor
  · intro env st minVers gs floor fv rv hdel hlook hpf hpr
    have hgate : ∀ b, segmentsLess rv fv = b →
        versionFloorGate minVers gs =
          (if b then GateResult.gateSkip else GateResult.gateProceed) := by
      intro b hb
      unfold versionFloorGate
      simp only [hlook, hpf, hpr, hb]
    constructor
    · intro hless
      have h := hgate true hless
      simp only [if_true] at h
      simp only [GroupSnapshotController.handle, hdel, Bool.false_eq_true,
        if_false, h]
      exact ⟨trivial, trivial, trivial, trivial, trivial, trivial⟩
    · intro hge
      have h := hgate false hge
      simp only [if_false] at h
      simp only [GroupSnapshotController.handle, hdel, Bool.false_eq_true,
        if_false, h]
      rcases hfin : (GroupSnapshotController.dispatchStage env st gs).isFinalReturn with _ | _
      · simp only [hfin, Bool.false_eq_true, if_false]
        rcases herr : (GroupSnapshotController.dispatchStage env st gs).err with _ | e
        · rcases hfl : (GroupSnapshotController.dispatchStage env st gs).updateFlag with _ | _
          · simp [herr, hfl]
          · rcases hue : env.updateErr with _ | ue
            · simp [herr, hfl, hue]
            · simp [herr, hfl, hue]
        · simp [herr]
      · simp [hfin]
  · exact ⟨by decide, by decide, by decide, by decide⟩

/-- Witness for C2: the general statement applied at the concrete floor "5"
with incoming version "3" (skipped). -/
theorem handle_version_floor_gate_witness :
    (GroupSnapshotController.handle trivialGSEnv emptyStore
        [("uid2", "5")] { floorScenarioGS with resourceVersion := "3" }).gs
      = { floorScenarioGS with resourceVersion := "3" } ∧
    (GroupSnapshotController.handle trivialGSEnv emptyStore
        [("uid2", "5")] { floorScenarioGS with resourceVersion := "3" }).stageHandlerRan
      = false :=
  let h := (handle_version_floor_gate.1 trivialGSEnv emptyStore
    [("uid2", "5")] { floorScenarioGS with resourceVersion := "3" } "5"
    [5] [3] rfl rfl (by decide) (by decide)).1 (by decide)
  ⟨h.1, h.2.1⟩

/-! ## C8: invalid PVC selector -/

/-- A group snapshot whose selector has an empty `matchLabels`. -/
def invalidSelectorGS : GroupVolumeSnapshot :=
  { name := "gsbad", ns := "ns1", uid := "uidbad", resourceVersion := "1"
    deletionTimestamp := false
    spec := { pvcSelector := { matchLabels := [], matchExpressions := [] }
              preExecRule := "", postExecRule := "", maxRetries := 0
              restoreNamespaces := [] }
    status := { stage := GroupVolumeSnapshotStageType.initial
                status := GroupVolumeSnapshotStatusType.statusInitial
                numRetries := 0, volumeSnapshots := [] } }

/-- C8 counterexample: with an empty `matchLabels`, `handleInitial` does set
the in-memory status to Failed/Final and returns an error without a driver
call — but `handle` returns that error *before* issuing the CRD update, so
the Failed/Final state is never persisted, and reconciling the unchanged
durable object again errors again: the terminal state is not reached
durably on the first reconciliation and the validation *is* retried. -/
theorem handleInitial_invalid_selector_counterexample :
    (GroupSnapshotController.handle trivialGSEnv emptyStore []
        invalidSelectorGS).gs.status.status
      = GroupVolumeSnapshotStatusType.failed ∧
    (GroupSnapshotController.handle trivialGSEnv emptyStore []
        invalidSelectorGS).gs.status.stage
      = GroupVolumeSnapshotStageType.final ∧
    (GroupSnapshotController.handle trivialGSEnv emptyStore []
        invalidSelectorGS).ret.isSome = true ∧
    (GroupSnapshotController.handle trivialGSEnv emptyStore []
        invalidSelectorGS).persisted = false ∧
    (GroupSnapshotController.handle trivialGSEnv emptyStore
        (GroupSnapshotController.handle trivialGSEnv emptyStore []
          invalidSelectorGS).minVers
        invalidSelectorGS).ret.isSome = true := by
  decide

/-- The in-memory mutation `handleInitial` performs on a validation
failure. -/
theorem handleInitial_invalid (env : GSEnv) (gs : GroupVolumeSnapshot)
    (hsel : gs.spec.pvcSelector.matchExpressions ≠ [] ∨
            gs.spec.pvcSelector.matchLabels = []) :
    ∃ e, GroupSnapshotController.handleInitial env gs =
      ({ gs with status := { gs.status with
          status := GroupVolumeSnapshotStatusType.failed
          stage := GroupVolumeSnapshotStageType.final } }, true, some e) := by
  by_cases hl : gs.spec.pvcSelector.matchLabels = []
  · refine ⟨"matchLabels are required for group snapshots. Refer to spec examples", ?_⟩
    unfold GroupSnapshotController.handleInitial
    rw [hl]
    simp
  · have hme : gs.spec.pvcSelector.matchExpressions ≠ [] := by
      rcases hsel with h | h
      · exact h
      · exact absurd h hl
    refine ⟨"matchExpressions are currently not supported in the spec. Use matchLabels", ?_⟩
    unfold GroupSnapshotController.handleInitial
    have h1 : 0 < gs.spec.pvcSelector.matchExpressions.length :=
      List.length_pos.mpr hme
    have h2 : (gs.spec.pvcSelector.matchLabels.length == 0) = false := by
      simp [hl]
    simp only [gt_iff_lt, if_pos h1, h2, Bool.false_eq_true, if_false]

/-- C8 amended: when the selector has a `matchExpressions` clause or an empty
`matchLabels`, the initial handler marks the in-memory resource Failed/Final
and returns an error without any volume-driver call; but `handle` returns the
error before writing any update, so the Failed/Final state is not persisted
and the validation is re-run (and fails again) on every subsequent
reconciliation. -/
theorem handleInitial_invalid_selector_amended
    (env : GSEnv) (st : Store) (minVers : List (String × String))
    (gs : GroupVolumeSnapshot)
    (hdel : gs.deletionTimestamp = false)
    (hfloor : List.lookup gs.uid minVers = none)
    (hstage : gs.status.stage = GroupVolumeSnapshotStageType.initial ∨
              gs.status.stage = GroupVolumeSnapshotStageType.preChecks)
    (hsel : gs.spec.pvcSelector.matchExpressions ≠ [] ∨
            gs.spec.pvcSelector.matchLabels = []) :
    (GroupSnapshotController.handle env st minVers gs).gs.status.status
      = GroupVolumeSnapshotStatusType.failed ∧
    (GroupSnapshotController.handle env st minVers gs).gs.status.stage
      = GroupVolumeSnapshotStageType.final ∧
    (GroupSnapshotController.handle env st minVers gs).ret.isSome = true ∧
    (GroupSnapshotController.handle env st minVers gs).events.length = 1 ∧
    (GroupSnapshotController.handle env st minVers gs).driverCalls = [] ∧
    (GroupSnapshotController.handle env st minVers gs).persisted = false ∧
    (GroupSnapshotController.handle env st minVers gs).store = st := by
  have hgate : versionFloorGate minVers gs = GateResult.gateProceed := by
    unfold versionFloorGate
    rw [hfloor]
  obtain ⟨e, hinit⟩ := handleInitial_invalid env gs hsel
  have hdisp : GroupSnapshotController.dispatchStage env st gs =
      { gs := { gs with status := { gs.status with
            status := GroupVolumeSnapshotStatusType.failed
            stage := GroupVolumeSnapshotStageType.final } }
        updateFlag := true, err := some e, calls := [], store := st,
        events := [], isFinalReturn := false } := by
    rcases hstage with h | h <;>
      · unfold GroupSnapshotController.dispatchStage
        rw [h]
        simp only [hinit]
  simp only [GroupSnapshotController.handle, hdel, Bool.false_eq_true,
    if_false, hgate, hdisp]
  simp

/-- Witness for the amended C8 at the concrete empty-`matchLabels`
resource. -/
theorem handleInitial_invalid_selector_amended_witness :
    (GroupSnapshotController.handle trivialGSEnv emptyStore []
        invalidSelectorGS).gs.status.status
      = GroupVolumeSnapshotStatusType.failed ∧
    (GroupSnapshotController.handle trivialGSEnv emptyStore []
        invalidSelectorGS).gs.status.stage
      = GroupVolumeSnapshotStageType.final ∧
    (GroupSnapshotController.handle trivialGSEnv emptyStore []
        invalidSelectorGS).ret.isSome = true ∧
    (GroupSnapshotController.handle trivialGSEnv emptyStore []
        invalidSelectorGS).events.length = 1 ∧
    (GroupSnapshotController.handle trivialGSEnv emptyStore []
        invalidSelectorGS).driverCalls = [] ∧
    (GroupSnapshotController.handle trivialGSEnv emptyStore []
        invalidSelectorGS).persisted = false ∧
    (GroupSnapshotController.handle trivialGSEnv emptyStore []
        invalidSelectorGS).store = emptyStore :=
  handleInitial_invalid_selector_amended trivialGSEnv emptyStore []
    invalidSelectorGS rfl rfl (Or.inl rfl) (Or.inr rfl)

/-! ## C4: stage-handler error propagation -/

/-- Error-free collaborator environment for the restore controller. -/
def trivialAREnv : AREnv :=
  { getBackupErr := none
    driverBatches := []
    pollPhase := fun r =>
      { restore := r, events := [], persisted := false, ret := none }
    downloadErr := none
    applyObjects := []
    csiObjects := []
    updateErr := none
    setDefaultsErr := none
    verifyNamespacesErr := none
    cancelErr := none }

/-- A restore that has reached the Applications stage. -/
def appsStageRestore : ApplicationRestore :=
  { name := "r1", ns := "ns1", uid := "u1", deletionTimestamp := false
    replacePolicy := ReplacePolicy.retain, backupName := "b1"
    backupLocation := "loc1"
    status := { stage := ApplicationRestoreStageType.applications
                status := ApplicationRestoreStatusType.inProgress
                reason := "", volumes := [], resources := [], totalSize := 0 } }

/-- Environment in which downloading the backup's resources fails. -/
def downloadFailEnv : AREnv :=
  { trivialAREnv with downloadErr := some "connection refused" }

/-- C4 counterexample: in the application restore controller, the
Applications stage handler (`restoreResources`) returns an error, a warning
event is emitted — but `handle` returns nil, so the reconciliation call
reports success instead of failure. -/
theorem stage_handler_error_propagation_counterexample :
    (ApplicationRestoreController.restoreResources downloadFailEnv
        appsStageRestore).snd.fst = some "connection refused" ∧
    (ApplicationRestoreController.handle downloadFailEnv
        appsStageRestore).events
      = [warnEvent "Error restoring resources: connection refused"] ∧
    (ApplicationRestoreController.handle downloadFailEnv
        appsStageRestore).ret = none := by
  decide

/-- C4 amended: in the group snapshot controller an error from a non-Final
stage handler emits a warning event and is returned from `handle` (so the
reconciliation reports failure and is rescheduled with backoff), while an
error from the Final stage handler is returned without an event; in the
application restore controller a stage-handler error (Volumes or
Applications stage) emits a warning event but `handle` swallows it and
returns nil, so the reconciliation reports success and relies on the
periodic requeue. -/
theorem stage_handler_error_propagation_amended :
    (∀ (env : GSEnv) (st : Store) (minVers : List (String × String))
        (gs : GroupVolumeSnapshot) (e : String),
      gs.deletionTimestamp = false →
      versionFloorGate minVers gs = GateResult.gateProceed →
      (GroupSnapshotController.dispatchStage env st gs).isFinalReturn = false →
      (GroupSnapshotController.dispatchStage env st gs).err = some e →
      (GroupSnapshotController.handle env st minVers gs).ret = some e ∧
      warnEvent e ∈ (GroupSnapshotController.handle env st minVers gs).events ∧
      (GroupSnapshotController.handle env st minVers gs).persisted = false) ∧
    (∀ (env : GSEnv) (st : Store) (minVers : List (String × String))
        (gs : GroupVolumeSnapshot) (e : String),
      gs.deletionTimestamp = false →
      versionFloorGate minVers gs = GateResult.gateProceed →
      gs.status.stage = GroupVolumeSnapshotStageType.final →
      env.handleFinalErr = some e →
      (GroupSnapshotController.handle env st minVers gs).ret = some e ∧
      (GroupSnapshotController.handle env st minVers gs).events = []) ∧
    (∀ (env : AREnv) (restore : ApplicationRestore) (e : String),
      restore.deletionTimestamp = false →
      env.setDefaultsErr = none →
      env.verifyNamespacesErr = none →
      (restore.status.stage = ApplicationRestoreStageType.initial ∨
        restore.status.stage = ApplicationRestoreStageType.volumes) →
      (ApplicationRestoreController.restoreVolumes env restore).ret = some e →
      (ApplicationRestoreController.handle env restore).ret = none ∧
      warnEvent ("Error restoring volumes: " ++ e) ∈
        (ApplicationRestoreController.handle env restore).events) ∧
    (∀ (env : AREnv) (restore : ApplicationRestore) (e : String),
      restore.deletionTimestamp = false →
      env.setDefaultsErr = none →
      env.verifyNamespacesErr = none →
      restore.status.stage = ApplicationRestoreStageType.applications →
      (ApplicationRestoreController.restoreResources env restore).snd.fst
        = some e →
      (ApplicationRestoreController.handle env restore).ret = none ∧
      warnEvent ("Error restoring resources: " ++ e) ∈
        (ApplicationRestoreController.handle env restore).events) := by
  refine ⟨?_, ?_, ?_, ?_⟩
  · intro env st minVers gs e hdel hgate hnf herr
    simp only [GroupSnapshotController.handle, hdel, Bool.false_eq_true,
      if_false, hgate, hnf, herr]
    simp
  · intro env st minVers gs e hdel hgate hstage herr
    have hdisp : GroupSnapshotController.dispatchStage env st gs =
        { gs := gs, updateFlag := false, err := env.handleFinalErr,
          calls := [], store := st, events := [], isFinalReturn := true } := by
      unfold GroupSnapshotController.dispatchStage
      rw [hstage]
    simp only [GroupSnapshotController.handle, hdel, Bool.false_eq_true,
      if_false, hgate, hdisp, herr]
    simp
  · intro env restore e hdel h1 h2 hstage hrv
    rcases hstage with h | h <;>
      · simp only [ApplicationRestoreController.handle, hdel,
          Bool.false_eq_true, if_false, h1, h2, h, hrv]
        simp
  · intro env restore e hdel h1 h2 hstage hrr
    simp only [ApplicationRestoreController.handle, hdel,
      Bool.false_eq_true, if_false, h1, h2, hstage, hrr]
    simp

/-- Witness for the amended C4: the restore-side conjunct applied at the
concrete failed-download environment. -/
theorem stage_handler_error_propagation_amended_witness :
    (ApplicationRestoreController.handle downloadFailEnv
        appsStageRestore).ret = none ∧
    warnEvent ("Error restoring resources: " ++ "connection refused") ∈
      (ApplicationRestoreController.handle downloadFailEnv
        appsStageRestore).events :=
  stage_handler_error_propagation_amended.2.2.2 downloadFailEnv
    appsStageRestore "connection refused" rfl rfl rfl rfl (by decide)

/-! ## C3: derived-object materialization is not idempotent -/

/-- A single successfully completed per-volume record. -/
def doneRecord : VolumeSnapshotStatus :=
  { parentVolumeID := "vol1", taskID := "t1", volumeSnapshotName := ""
    dataSource := "src1"
    conditions := [{ ctype := VolumeSnapshotConditionType.ready
                     status := ConditionStatus.conditionTrue
                     message := "done" }] }

/-- The parent group snapshot for the materialization runs. -/
def materializeGS : GroupVolumeSnapshot :=
  { name := "gs1", ns := "ns1", uid := "uid1", resourceVersion := "4"
    deletionTimestamp := false
    spec := { pvcSelector := { matchLabels := [("app", "db")]
                               matchExpressions := [] }
              preExecRule := "", postExecRule := "", maxRetries := 0
              restoreNamespaces := [] }
    status := { stage := GroupVolumeSnapshotStageType.snapshot
                status := GroupVolumeSnapshotStatusType.inProgress
                numRetries := 0, volumeSnapshots := [] } }

/-- C3: running `createSnapAndDataObjects` twice with identical input and a
fault-free API is *not* a no-op.  The first call creates the
VolumeSnapshotData/VolumeSnapshot pair `gs1-vol1-uid1`.  On the second call
the data create hits AlreadyExists and `replaceSnapshotData` correctly
compares equal specs and leaves it alone; but the snapshot create's
AlreadyExists goes to `replaceSnapshot`, which fetches the snapshot **data**
object instead of the snapshot, compares a `VolumeSnapshotDataSpec` against a
`VolumeSnapshotSpec` (`reflect.DeepEqual` over two distinct Go types, always
false), deletes the data object and re-creates the snapshot — which fails
AlreadyExists again.  The second call therefore returns an error and has
deleted the VolumeSnapshotData object. -/
theorem createSnapAndDataObjects_second_call_not_noop :
    (GroupSnapshotController.createSnapAndDataObjects trivialGSEnv
        materializeGS [doneRecord] emptyStore).res
      = Except.ok [{ doneRecord with volumeSnapshotName := "gs1-vol1-uid1" }] ∧
    (findDataObj (GroupSnapshotController.createSnapAndDataObjects trivialGSEnv
        materializeGS [doneRecord] emptyStore).store.datas
        "gs1-vol1-uid1").isSome = true ∧
    (findSnapObj (GroupSnapshotController.createSnapAndDataObjects trivialGSEnv
        materializeGS [doneRecord] emptyStore).store.snaps
        "ns1" "gs1-vol1-uid1").isSome = true ∧
    (GroupSnapshotController.createSnapAndDataObjects trivialGSEnv
        materializeGS [doneRecord]
        (GroupSnapshotController.createSnapAndDataObjects trivialGSEnv
          materializeGS [doneRecord] emptyStore).store).res
      = Except.error (GoErr.alreadyExists "gs1-vol1-uid1") ∧
    findDataObj (GroupSnapshotController.createSnapAndDataObjects trivialGSEnv
        materializeGS [doneRecord]
        (GroupSnapshotController.createSnapAndDataObjects trivialGSEnv
          materializeGS [doneRecord] emptyStore).store).store.datas
        "gs1-vol1-uid1" = none := by
  decide

/-! ## C5: a StartRestore failure is terminal -/

/-- Drivers whose pre-steps and `StartRestore` succeed are consumed by the
start loop one by one, each contributing exactly one `StartRestore` call. -/
theorem startLoop_clean_prefix (env : AREnv) (pre : List DriverBatch) :
    ∀ (r : ApplicationRestore) (calls : List String) (evs : List Event)
      (tail : List DriverBatch),
    (∀ b ∈ pre, b.preStepErr = none ∧
        ∃ infos, b.startResult = Except.ok infos) →
    ∃ r', startLoop env r calls evs (pre ++ tail) =
      startLoop env r' (calls ++ pre.map DriverBatch.name) evs tail := by
  induction pre with
  | nil =>
    intro r calls evs tail _
    exact ⟨r, by simp⟩
  | cons b pre ih =>
    intro r calls evs tail h
    obtain ⟨hbp, infos, hbs⟩ := h b (by simp)
    have hrest : ∀ x ∈ pre, x.preStepErr = none ∧
        ∃ i, x.startResult = Except.ok i := by
      intro x hx; exact h x (List.mem_cons_of_mem b hx)
    obtain ⟨r', hr'⟩ := ih
      { r with status := { r.status with
          volumes := r.status.volumes ++ infos } }
      (calls ++ [b.name]) evs tail hrest
    refine ⟨r', ?_⟩
    rw [List.cons_append]
    show startLoop env r calls evs (b :: (pre ++ tail)) = _
    simp only [startLoop, hbp, hbs]
    rw [hr']
    simp

/-- C5: in the fresh-start path of `restoreVolumes`, the first driver whose
`StartRestore` fails terminally fails the whole restore in the same
reconciliation: status Failed, stage Final, the failure reason recorded, the
status update persisted — and the loop stops, so every driver's
`StartRestore` was invoked at most once and none after the failing one. -/
theorem restoreVolumes_start_failure_terminal
    (env : AREnv) (restore : ApplicationRestore) (pre : List DriverBatch)
    (d : DriverBatch) (rest : List DriverBatch) (e : String)
    (hvol : restore.status.volumes = [])
    (hb : env.driverBatches = pre ++ d :: rest)
    (hpre : ∀ b ∈ pre, b.preStepErr = none ∧
        ∃ infos, b.startResult = Except.ok infos)
    (hdp : d.preStepErr = none)
    (hds : d.startResult = Except.error e)
    (hbk : env.getBackupErr = none)
    (hupd : env.updateErr = none) :
    (ApplicationRestoreController.restoreVolumes env restore).restore.status.status
      = ApplicationRestoreStatusType.failed ∧
    (ApplicationRestoreController.restoreVolumes env restore).restore.status.stage
      = ApplicationRestoreStageType.final ∧
    (ApplicationRestoreController.restoreVolumes env restore).restore.status.reason
      = "Error starting Application Restore for volumes: " ++ e ∧
    (ApplicationRestoreController.restoreVolumes env restore).persisted = true ∧
    (ApplicationRestoreController.restoreVolumes env restore).ret = none ∧
    (ApplicationRestoreController.restoreVolumes env restore).startCalls
      = pre.map DriverBatch.name ++ [d.name] := by
  have hvol2 : ({ restore with status := { restore.status with
      stage := ApplicationRestoreStageType.volumes } } :
        ApplicationRestore).status.volumes.isEmpty = true := by
    simp [hvol]
  obtain ⟨r', hr'⟩ := startLoop_clean_prefix env pre
    { restore with status := { restore.status with
        stage := ApplicationRestoreStageType.volumes } }
    [] [] (d :: rest) hpre
  have hstep : startLoop env r' ([] ++ pre.map DriverBatch.name)
      [] (d :: rest) =
      { restore := { r' with status := { r'.status with
          status := ApplicationRestoreStatusType.failed
          stage := ApplicationRestoreStageType.final
          reason := "Error starting Application Restore for volumes: " ++ e } }
        startCalls := ([] ++ pre.map DriverBatch.name) ++ [d.name]
        events := [] ++ [warnEvent
          ("Error starting Application Restore for volumes: " ++ e)]
        persisted := true, ret := none } := by
    simp only [startLoop, hdp, hds, hupd]
  unfold ApplicationRestoreController.restoreVolumes
  rw [if_pos hvol2, hbk, hb, hr', hstep]
  simp

/-- Witness for C5: one healthy driver followed by one failing driver. -/
theorem restoreVolumes_start_failure_terminal_witness :
    ((ApplicationRestoreController.restoreVolumes
        { trivialAREnv with driverBatches :=
            [{ name := "portworx", preStepErr := none
               startResult := Except.ok [] },
             { name := "csi", preStepErr := none
               startResult := Except.error "no credentials" }] }
        { appsStageRestore with status := { appsStageRestore.status with
            stage := ApplicationRestoreStageType.volumes
            volumes := [] } }).restore.status.status
      = ApplicationRestoreStatusType.failed ∧
      (ApplicationRestoreController.restoreVolumes
        { trivialAREnv with driverBatches :=
            [{ name := "portworx", preStepErr := none
               startResult := Except.ok [] },
             { name := "csi", preStepErr := none
               startResult := Except.error "no credentials" }] }
        { appsStageRestore with status := { appsStageRestore.status with
            stage := ApplicationRestoreStageType.volumes
            volumes := [] } }).startCalls = ["portworx", "csi"]) := by
  have h := restoreVolumes_start_failure_terminal
    { trivialAREnv with driverBatches :=
        [{ name := "portworx", preStepErr := none
           startResult := Except.ok [] },
         { name := "csi", preStepErr := none
           startResult := Except.error "no credentials" }] }
    { appsStageRestore with status := { appsStageRestore.status with
        stage := ApplicationRestoreStageType.volumes
        volumes := [] } }
    [{ name := "portworx", preStepErr := none, startResult := Except.ok [] }]
    { name := "csi", preStepErr := none
      startResult := Except.error "no credentials" }
    [] "no credentials" rfl rfl
    (by intro b hb; simp at hb; subst hb; exact ⟨rfl, [], rfl⟩)
    rfl rfl rfl rfl
  exact ⟨h.1, h.2.2.2.2.2⟩

/-! ## C6: per-resource status record uniqueness -/

/-- The (group, version, kind, namespace, name) tuple of a record. -/
def tupleOf (r : ApplicationRestoreResourceInfo) :
    String × String × String × String × String :=
  (r.group, r.version, r.kind, r.ns, r.name)

/-- The identity tuple of an incoming object. -/
def objTuple (o : RestoreObject) :
    String × String × String × String × String :=
  (o.group, o.version, o.kind, o.ns, o.name)

/-- Group normalisation under the claimed "core is equivalent to the empty
group" reading. -/
def groupKey (g : String) : String := if g == "core" then "" else g

/-- Whether two records name the same tuple under core ≡ "". -/
def sameTupleModCore (a b : ApplicationRestoreResourceInfo) : Bool :=
  groupKey a.group == groupKey b.group && a.version == b.version &&
    a.kind == b.kind && a.ns == b.ns && a.name == b.name

/-- At most one record per core-normalised tuple. -/
def recordsUniqueModCore : List ApplicationRestoreResourceInfo → Bool
  | [] => true
  | r :: rest =>
    rest.all (fun x => !(sameTupleModCore r x)) && recordsUniqueModCore rest

/-- The ConfigMap recorded first with its native empty group. -/
def coreDupObj1 : RestoreObject :=
  { group := "", version := "v1", kind := "ConfigMap", ns := "ns1"
    name := "cfg" }

/-- The same ConfigMap recorded again with the spelled-out "core" group (as
`addCSIVolumeResources` does for PV/PVC objects). -/
def coreDupObj2 : RestoreObject := { coreDupObj1 with group := "core" }

/-- C6 counterexample: the matching test treats a recorded "core" group as
equal to an incoming empty group but *not* the other way round, so recording
a tuple first under the empty group and then under "core" appends a second
record: two records for one core-normalised tuple. -/
theorem updateResourceStatus_core_group_duplicate_counterexample :
    (updateResourceStatus (updateResourceStatus [] coreDupObj1
        ApplicationRestoreStatusType.successful "Resource restored successfully")
        coreDupObj2 ApplicationRestoreStatusType.successful
        "Resource restored successfully").length = 2 ∧
    recordsUniqueModCore
      (updateResourceStatus (updateResourceStatus [] coreDupObj1
        ApplicationRestoreStatusType.successful "Resource restored successfully")
        coreDupObj2 ApplicationRestoreStatusType.successful
        "Resource restored successfully") = false := by
  decide

theorem find?_cons_pos {α : Type} (p : α → Bool) (a : α) (l : List α)
    (h : p a = true) : List.find? p (a :: l) = some a := by
  unfold List.find?
  rw [h]

theorem find?_cons_neg {α : Type} (p : α → Bool) (a : α) (l : List α)
    (h : p a = false) : List.find? p (a :: l) = List.find? p l := by
  have hstep : List.find? p (a :: l) =
      match p a with
      | true => some a
      | false => List.find? p l := rfl
  rw [hstep, h]

theorem tupleOf_set_status (r : ApplicationRestoreResourceInfo)
    (s : ApplicationRestoreStatusType) (rr : String) :
    tupleOf { r with status := s, reason := rr } = tupleOf r := rfl

theorem exact_tuple_resourceMatches (r : ApplicationRestoreResourceInfo)
    (o : RestoreObject) (h : tupleOf r = objTuple o) :
    resourceMatches r o = true := by
  simp only [tupleOf, objTuple, Prod.mk.injEq] at h
  obtain ⟨h1, h2, h3, h4, h5⟩ := h
  simp [resourceMatches, h1, h2, h3, h4, h5]

theorem mem_map_tuple_updateResourceStatus
    (o : RestoreObject) (s : ApplicationRestoreStatusType) (rr : String) :
    ∀ (rs : List ApplicationRestoreResourceInfo) t,
      t ∈ (updateResourceStatus rs o s rr).map tupleOf →
      t ∈ rs.map tupleOf ∨ t = objTuple o := by
  intro rs
  induction rs with
  | nil =>
    intro t ht
    simp only [updateResourceStatus, List.map_cons, List.map_nil,
      List.mem_singleton] at ht
    right
    rw [ht]
    rfl
  | cons r rest ih =>
    intro t ht
    by_cases hm : resourceMatches r o = true
    · simp only [updateResourceStatus, hm, if_true, List.map_cons,
        List.mem_cons, tupleOf_set_status] at ht
      rcases ht with h | h
      · left; simp [h]
      · left; simp only [List.map_cons, List.mem_cons]; right; exact h
    · rw [Bool.not_eq_true] at hm
      simp only [updateResourceStatus, hm, Bool.false_eq_true, if_false,
        List.map_cons, List.mem_cons] at ht
      rcases ht with h | h
      · left; simp [h]
      · rcases ih t h with h2 | h2
        · left; simp only [List.map_cons, List.mem_cons]; right; exact h2
        · right; exact h2

theorem nodup_updateResourceStatus
    (o : RestoreObject) (s : ApplicationRestoreStatusType) (rr : String) :
    ∀ rs : List ApplicationRestoreResourceInfo,
      (rs.map tupleOf).Nodup →
      ((updateResourceStatus rs o s rr).map tupleOf).Nodup := by
  intro rs
  induction rs with
  | nil =>
    intro _
    simp [updateResourceStatus]
  | cons r rest ih =>
    intro h
    rw [List.map_cons, List.nodup_cons] at h
    obtain ⟨hnotin, hnd⟩ := h
    by_cases hm : resourceMatches r o = true
    · simp only [updateResourceStatus, hm, if_true, List.map_cons,
        tupleOf_set_status, List.nodup_cons]
      exact ⟨hnotin, hnd⟩
    · rw [Bool.not_eq_true] at hm
      simp only [updateResourceStatus, hm, Bool.false_eq_true, if_false,
        List.map_cons, List.nodup_cons]
      refine ⟨?_, ih hnd⟩
      intro hmem
      rcases mem_map_tuple_updateResourceStatus o s rr rest (tupleOf r)
          hmem with h2 | h2
      · exact hnotin h2
      · have := exact_tuple_resourceMatches r o h2
        rw [hm] at this
        exact absurd this (by simp)

/-- C6 amended: after any sequence of `updateResourceStatus` calls the
per-resource status list has at most one record per **exact**
(group, version, kind, namespace, name) tuple, and recording a tuple that
already has a matching record updates that record's status and reason fields
in place (no second record).  The "core ≡ empty group" equivalence holds
only in one direction: a recorded group "core" also captures an incoming
empty group, but a recorded empty group does not capture an incoming
"core", which appends a separate record. -/
theorem updateResourceStatus_exact_tuple_unique :
    (∀ calls : List (RestoreObject × ApplicationRestoreStatusType × String),
      ((calls.foldl
        (fun rs c => updateResourceStatus rs c.fst c.snd.fst c.snd.snd)
        []).map tupleOf).Nodup) ∧
    (∀ (rs : List ApplicationRestoreResourceInfo) (o : RestoreObject)
        (s : ApplicationRestoreStatusType) (rr : String)
        (rec : ApplicationRestoreResourceInfo),
      rs.find? (fun x => resourceMatches x o) = some rec →
      (updateResourceStatus rs o s rr).length = rs.length ∧
      (updateResourceStatus rs o s rr).find? (fun x => resourceMatches x o)
        = some { rec with status := s, reason := rr }) ∧
    (∀ (r : ApplicationRestoreResourceInfo) (o : RestoreObject),
      r.group = "core" → o.group = "" → r.version = o.version →
      r.kind = o.kind → r.ns = o.ns → r.name = o.name →
      resourceMatches r o = true) := by
  refine ⟨?_, ?_, ?_⟩
  · have hgen : ∀ (calls : List (RestoreObject ×
        ApplicationRestoreStatusType × String))
        (rs : List ApplicationRestoreResourceInfo),
        (rs.map tupleOf).Nodup →
        ((calls.foldl
          (fun rs c => updateResourceStatus rs c.fst c.snd.fst c.snd.snd)
          rs).map tupleOf).Nodup := by
      intro calls
      induction calls with
      | nil => intro rs h; exact h
      | cons c calls ih =>
        intro rs h
        exact ih _ (nodup_updateResourceStatus c.fst c.snd.fst c.snd.snd rs h)
    intro calls
    exact hgen calls [] (by simp)
  · intro rs o s rr
    induction rs with
    | nil => intro rec h; exact absurd h (by simp)
    | cons r rest ih =>
      intro rec h
      by_cases hm : resourceMatches r o = true
      · rw [find?_cons_pos (fun x => resourceMatches x o) r rest hm] at h
        injection h with h
        subst h
        constructor
        · simp [updateResourceStatus, hm]
        · simp only [updateResourceStatus, hm, if_true]
          exact find?_cons_pos (fun x => resourceMatches x o)
            { r with status := s, reason := rr } rest hm
      · rw [Bool.not_eq_true] at hm
        rw [find?_cons_neg (fun x => resourceMatches x o) r rest hm] at h
        obtain ⟨hlen, hfind⟩ := ih rec h
        constructor
        · simp [updateResourceStatus, hm, hlen]
        · simp only [updateResourceStatus, hm, Bool.false_eq_true, if_false]
          rw [find?_cons_neg (fun x => resourceMatches x o) r
            (updateResourceStatus rest o s rr) hm, hfind]
  · intro r o h1 h2 h3 h4 h5 h6
    simp [resourceMatches, h1, h2, h3, h4, h5, h6]

/-- Witness for the amended C6: a second application of the same ConfigMap
object updates the single existing record in place. -/
theorem updateResourceStatus_exact_tuple_unique_witness :
    (updateResourceStatus
        [{ group := "", version := "v1", kind := "ConfigMap", ns := "ns1",
           name := "cfg",
           status := ApplicationRestoreStatusType.successful,
           reason := "Resource restored successfully" }]
        coreDupObj1 ApplicationRestoreStatusType.retained "kept").length = 1 ∧
    (updateResourceStatus
        [{ group := "", version := "v1", kind := "ConfigMap", ns := "ns1",
           name := "cfg",
           status := ApplicationRestoreStatusType.successful,
           reason := "Resource restored successfully" }]
        coreDupObj1 ApplicationRestoreStatusType.retained "kept").find?
        (fun x => resourceMatches x coreDupObj1)
      = some { group := "", version := "v1", kind := "ConfigMap", ns := "ns1",
               name := "cfg",
               status := ApplicationRestoreStatusType.retained,
               reason := "kept" } :=
  updateResourceStatus_exact_tuple_unique.2.1
    [{ group := "", version := "v1", kind := "ConfigMap", ns := "ns1",
       name := "cfg",
       status := ApplicationRestoreStatusType.successful,
       reason := "Resource restored successfully" }]
    coreDupObj1 ApplicationRestoreStatusType.retained "kept"
    { group := "", version := "v1", kind := "ConfigMap", ns := "ns1",
      name := "cfg",
      status := ApplicationRestoreStatusType.successful,
      reason := "Resource restored successfully" }
    (by decide)

/-! ## C7: AlreadyExists under ReplacePolicy Retain -/

/-- A ConfigMap whose apply hits AlreadyExists. -/
def existingConfigMap : ApplyObject :=
  { obj := { group := "", version := "v1", kind := "ConfigMap", ns := "ns1"
             name := "cfg" }
    skip := false
    applyResult := ApplyOutcome.alreadyExists }

/-- C7 counterexample: under policy Retain the object *is* recorded with
status Retained, but the recorded reason — "Resource restore skipped as it
was already present and ReplacePolicy **is** set to Retain" — does not
contain the claimed substring "ReplacePolicy set to Retain". -/
theorem applyResources_retain_reason_counterexample :
    (ApplicationRestoreController.applyResources ReplacePolicy.retain []
        [existingConfigMap]).map
        (fun r => r.status)
      = [ApplicationRestoreStatusType.retained] ∧
    (ApplicationRestoreController.applyResources ReplacePolicy.retain []
        [existingConfigMap]).map
        (fun r => strContains r.reason "ReplacePolicy set to Retain")
      = [false] := by
  decide

/-- Applying `updateResourceStatus` always leaves a record matching the
object, carrying the given status and reason. -/
theorem updateResourceStatus_mem_updated (o : RestoreObject)
    (s : ApplicationRestoreStatusType) (rr : String) :
    ∀ rs : List ApplicationRestoreResourceInfo,
      ∃ rec, rec ∈ updateResourceStatus rs o s rr ∧
        resourceMatches rec o = true ∧ rec.status = s ∧ rec.reason = rr := by
  intro rs
  induction rs with
  | nil =>
    refine ⟨{ group := o.group, version := o.version, kind := o.kind,
              ns := o.ns, name := o.name, status := s, reason := rr },
            ?_, ?_, rfl, rfl⟩
    · simp [updateResourceStatus]
    · simp [resourceMatches]
  | cons r rest ih =>
    by_cases hm : resourceMatches r o = true
    · refine ⟨{ r with status := s, reason := rr }, ?_, hm, rfl, rfl⟩
      simp [updateResourceStatus, hm]
    · rw [Bool.not_eq_true] at hm
      obtain ⟨rec, hmem, hma, hs, hr⟩ := ih
      refine ⟨rec, ?_, hma, hs, hr⟩
      simp only [updateResourceStatus, hm, Bool.false_eq_true, if_false,
        List.mem_cons]
      right
      exact hmem

/-- Any non-Successful record forces the finalize step to PartialSuccess. -/
theorem finalizeRestoreStatus_partial (restore : ApplicationRestore)
    (rec : ApplicationRestoreResourceInfo)
    (hmem : rec ∈ restore.status.resources)
    (hst : rec.status ≠ ApplicationRestoreStatusType.successful) :
    (finalizeRestoreStatus restore).status.status
      = ApplicationRestoreStatusType.partialSuccess ∧
    (finalizeRestoreStatus restore).status.stage
      = ApplicationRestoreStageType.final := by
  have hany : restore.status.resources.any
      (fun r => r.status != ApplicationRestoreStatusType.successful)
      = true := by
    rw [List.any_eq_true]
    exact ⟨rec, hmem, by simp [hst]⟩
  unfold finalizeRestoreStatus
  simp only [hany, if_true]
  simp

/-- C7 amended: with policy Retain an AlreadyExists apply records the object
as Retained (not Failed) with reason containing "ReplacePolicy is set to
Retain" and the loop continues with the remaining objects; a restore holding
such a record (all others Successful or otherwise) finishes as
PartialSuccess at stage Final; with policy Delete the same AlreadyExists is
recorded as an apply failure. -/
theorem applyResources_retain_already_exists_amended :
    (∀ (resources : List ApplicationRestoreResourceInfo) (o : ApplyObject)
        (rest : List ApplyObject),
      o.applyResult = ApplyOutcome.alreadyExists →
      applyLoop ReplacePolicy.retain resources (o :: rest) =
        applyLoop ReplacePolicy.retain
          (updateResourceStatus resources o.obj
            ApplicationRestoreStatusType.retained retainedReason) rest) ∧
    (∀ (resources : List ApplicationRestoreResourceInfo) (o : RestoreObject),
      ∃ rec, rec ∈ updateResourceStatus resources o
          ApplicationRestoreStatusType.retained retainedReason ∧
        resourceMatches rec o = true ∧
        rec.status = ApplicationRestoreStatusType.retained ∧
        strContains rec.reason "ReplacePolicy is set to Retain" = true) ∧
    (∀ (restore : ApplicationRestore)
        (rec : ApplicationRestoreResourceInfo),
      rec ∈ restore.status.resources →
      rec.status = ApplicationRestoreStatusType.retained →
      (finalizeRestoreStatus restore).status.status
        = ApplicationRestoreStatusType.partialSuccess ∧
      (finalizeRestoreStatus restore).status.stage
        = ApplicationRestoreStageType.final) ∧
    (∀ (resources : List ApplicationRestoreResourceInfo) (o : ApplyObject)
        (rest : List ApplyObject),
      o.applyResult = ApplyOutcome.alreadyExists →
      applyLoop ReplacePolicy.delete resources (o :: rest) =
        applyLoop ReplacePolicy.delete
          (updateResourceStatus resources o.obj
            ApplicationRestoreStatusType.failed
            ("Error applying resource: " ++ o.obj.name ++ " already exists"))
          rest) := by
  refine ⟨?_, ?_, ?_, ?_⟩
  · intro resources o rest h
    simp only [applyLoop, h]
  · intro resources o
    obtain ⟨rec, hmem, hma, hs, hr⟩ := updateResourceStatus_mem_updated o
      ApplicationRestoreStatusType.retained retainedReason resources
    refine ⟨rec, hmem, hma, hs, ?_⟩
    rw [hr]
    decide
  · intro restore rec hmem hst
    exact finalizeRestoreStatus_partial restore rec hmem (by simp [hst])
  · intro resources o rest h
    simp only [applyLoop, h]

/-- Witness for the amended C7 at the concrete already-existing ConfigMap. -/
theorem applyResources_retain_already_exists_amended_witness :
    applyLoop ReplacePolicy.retain [] [existingConfigMap] =
      applyLoop ReplacePolicy.retain
        (updateResourceStatus [] existingConfigMap.obj
          ApplicationRestoreStatusType.retained retainedReason) [] :=
  applyResources_retain_already_exists_amended.1 [] existingConfigMap [] rfl

/-! ## C9: rollback on a snapshot-object creation failure -/

/-- The deterministic child object name
`{parentName}-{parentPVCOrVolID}-{parentUUID}`. -/
def csdoObjName (env : GSEnv) (parentName parentUUID : String)
    (v : VolumeSnapshotStatus) : String :=
  parentName ++ "-" ++ env.resolvePVC v.parentVolumeID ++ "-" ++ parentUUID

/-- The VolumeSnapshotData object built for one volume. -/
def csdoDataObj (env : GSEnv) (parentName parentNamespace parentUUID : String)
    (v : VolumeSnapshotStatus) : VolumeSnapshotDataObj :=
  { name := csdoObjName env parentName parentUUID v
    spec :=
      { volumeSnapshotRefKind := "VolumeSnapshot"
        volumeSnapshotRefName := csdoObjName env parentName parentUUID v
        volumeSnapshotRefNamespace := parentNamespace
        dataSource := v.dataSource }
    statusCondition := v.conditions.getLast? }

/-- The VolumeSnapshot object built for one volume. -/
def csdoSnapObj (env : GSEnv) (parentName parentNamespace parentUUID : String)
    (v : VolumeSnapshotStatus) : VolumeSnapshotObj :=
  { name := csdoObjName env parentName parentUUID v
    ns := parentNamespace
    spec :=
      { snapshotDataName := csdoObjName env parentName parentUUID v
        persistentVolumeClaimName := env.resolvePVC v.parentVolumeID }
    conditions := v.conditions }

theorem findDataObj_eq_none_of_names (l : List VolumeSnapshotDataObj)
    (n : String) (h : ∀ d ∈ l, d.name ≠ n) : findDataObj l n = none := by
  unfold findDataObj
  rw [List.find?_eq_none]
  intro d hd
  simp [h d hd]

theorem findSnapObj_eq_none_of_names (l : List VolumeSnapshotObj)
    (ns n : String) (h : ∀ s ∈ l, s.name ≠ n) :
    findSnapObj l ns n = none := by
  unfold findSnapObj
  rw [List.find?_eq_none]
  intro s hs
  simp [h s hs]

theorem findDataObj_append_self_isSome (l : List VolumeSnapshotDataObj)
    (d : VolumeSnapshotDataObj) :
    (findDataObj (l ++ [d]) d.name).isSome = true := by
  unfold findDataObj
  rw [show ((List.find? (fun o => o.name == d.name) (l ++ [d])).isSome = true) ↔
      ∃ x ∈ l ++ [d], (x.name == d.name) = true from
    ⟨fun h => List.find?_isSome.mp h, fun h => List.find?_isSome.mpr h⟩]
  exact ⟨d, by simp⟩

theorem findDataObj_removeDataObj (l : List VolumeSnapshotDataObj)
    (n : String) : findDataObj (removeDataObj l n) n = none := by
  unfold findDataObj removeDataObj
  rw [List.find?_eq_none]
  intro d hd
  have := List.of_mem_filter hd
  simp at this
  simp [this]

/-- `storeDeleteSnapshotAttempt` never touches the data objects. -/
theorem storeDeleteSnapshotAttempt_datas (f : Faults) (n ns : String)
    (a : Nat) (st : Store) :
    (storeDeleteSnapshotAttempt f n ns a st).snd.datas = st.datas := by
  unfold storeDeleteSnapshotAttempt
  rcases f.deleteSnapFault n a with _ | m
  · rcases findSnapObj st.snaps ns n with _ | s <;> rfl
  · rfl

theorem revertDeleteRetry_datas (f : Faults) (n ns : String) :
    ∀ (steps attempt : Nat) (st : Store),
      (revertDeleteRetry f n ns steps attempt st).fst.datas = st.datas := by
  intro steps
  induction steps with
  | zero => intro attempt st; rfl
  | succ k ih =>
    intro attempt st
    unfold revertDeleteRetry
    rcases hd : storeDeleteSnapshotAttempt f n ns attempt st with ⟨res, st1⟩
    have hdatas : st1.datas = st.datas := by
      have := storeDeleteSnapshotAttempt_datas f n ns attempt st
      rw [hd] at this
      exact this
    rcases res with e | u
    · simp only []
      rw [ih (attempt + 1) st1, hdatas]
    · simp only []
      exact hdatas

theorem revertDeleteRetry_attempts_le (f : Faults) (n ns : String) :
    ∀ (steps attempt : Nat) (st : Store),
      (revertDeleteRetry f n ns steps attempt st).snd.fst ≤ steps := by
  intro steps
  induction steps with
  | zero => intro attempt st; exact Nat.le_refl 0
  | succ k ih =>
    intro attempt st
    unfold revertDeleteRetry
    rcases hd : storeDeleteSnapshotAttempt f n ns attempt st with ⟨res, st1⟩
    rcases res with e | u
    · simp only []
      exact Nat.succ_le_succ (ih (attempt + 1) st1)
    · simp only []
      exact Nat.succ_le_succ (Nat.zero_le k)

theorem revertLoop_props (f : Faults) :
    ∀ (objs : List VolumeSnapshotObj) (st : Store),
      (revertLoop f objs st).fst.datas = st.datas ∧
      (revertLoop f objs st).snd.map RevertEntry.name =
        objs.map VolumeSnapshotObj.name ∧
      ∀ entry ∈ (revertLoop f objs st).snd,
        entry.attempts ≤ snapDeleteBackoffSteps := by
  intro objs
  induction objs with
  | nil =>
    intro st
    exact ⟨rfl, rfl, by intro entry h; exact absurd h (by simp [revertLoop])⟩
  | cons s rest ih =>
    intro st
    unfold revertLoop
    rcases hr : revertDeleteRetry f s.name s.ns snapDeleteBackoffSteps 0 st
      with ⟨st1, n1, ok1⟩
    have hd1 : st1.datas = st.datas := by
      have := revertDeleteRetry_datas f s.name s.ns snapDeleteBackoffSteps 0 st
      rw [hr] at this
      exact this
    have hn1 : n1 ≤ snapDeleteBackoffSteps := by
      have := revertDeleteRetry_attempts_le f s.name s.ns
        snapDeleteBackoffSteps 0 st
      rw [hr] at this
      exact this
    obtain ⟨ih1, ih2, ih3⟩ := ih st1
    refine ⟨?_, ?_, ?_⟩
    · simp only []
      rw [ih1, hd1]
    · simp only [List.map_cons]
      rw [ih2]
    · intro entry h
      simp only [List.mem_cons] at h
      rcases h with h | h
      · rw [h]
        exact hn1
      · exact ih3 entry h

theorem revertSnapObjs_eq_revertLoop (f : Faults)
    (objs : List VolumeSnapshotObj) (st : Store) :
    revertSnapObjs f objs st = revertLoop f objs st := by
  cases objs with
  | nil => rfl
  | cons s rest => rfl

/-- Processing one clean volume (no injected faults, neither child object
present) creates its data and snapshot objects and recurses. -/
theorem csdoLoop_clean_step (env : GSEnv) (pn pns pu : String)
    (objs : List VolumeSnapshotObj) (stats : List VolumeSnapshotStatus)
    (v : VolumeSnapshotStatus) (tail : List VolumeSnapshotStatus) (st : Store)
    (hcd : env.faults.createDataFault (csdoObjName env pn pu v) = none)
    (hcs : env.faults.createSnapFault (csdoObjName env pn pu v) = none)
    (hfd : findDataObj st.datas (csdoObjName env pn pu v) = none)
    (hfs : findSnapObj st.snaps pns (csdoObjName env pn pu v) = none) :
    csdoLoop env pn pns pu objs stats (v :: tail) st =
      { csdoLoop env pn pns pu (objs ++ [csdoSnapObj env pn pns pu v])
          (stats ++ [{ v with volumeSnapshotName := csdoObjName env pn pu v }])
          tail
          { datas := st.datas ++ [csdoDataObj env pn pns pu v]
            snaps := st.snaps ++ [csdoSnapObj env pn pns pu v] } with
        calls := DriverCall.inspectVolume v.parentVolumeID ::
          (csdoLoop env pn pns pu (objs ++ [csdoSnapObj env pn pns pu v])
            (stats ++ [{ v with
                volumeSnapshotName := csdoObjName env pn pu v }])
            tail
            { datas := st.datas ++ [csdoDataObj env pn pns pu v]
              snaps := st.snaps ++ [csdoSnapObj env pn pns pu v] }).calls } := by
  simp only [csdoObjName] at hcd hcs hfd hfs
  simp only [csdoLoop, storeCreateSnapshotData, hcd, hfd,
    storeCreateSnapshot, hcs, hfs, csdoDataObj, csdoSnapObj, csdoObjName]

/-- Processing a volume whose snapshot create has an injected (non
AlreadyExists) fault: the data object is created, the snapshot create fails,
the data object delete is attempted, the earlier batch is reverted, and the
primary error is returned. -/
theorem csdoLoop_failing_step (env : GSEnv) (pn pns pu : String)
    (objs : List VolumeSnapshotObj) (stats : List VolumeSnapshotStatus)
    (v : VolumeSnapshotStatus) (tail : List VolumeSnapshotStatus) (st : Store)
    (m : String)
    (hcd : env.faults.createDataFault (csdoObjName env pn pu v) = none)
    (hfd : findDataObj st.datas (csdoObjName env pn pu v) = none)
    (hcs : env.faults.createSnapFault (csdoObjName env pn pu v) = some m) :
    csdoLoop env pn pns pu objs stats (v :: tail) st =
      { res := Except.error (GoErr.apiErr m)
        store := (revertSnapObjs env.faults objs
          (storeDeleteSnapshotData env.faults (csdoObjName env pn pu v)
            { datas := st.datas ++ [csdoDataObj env pn pns pu v]
              snaps := st.snaps }).snd).fst
        calls := [DriverCall.inspectVolume v.parentVolumeID]
        revertLog := (revertSnapObjs env.faults objs
          (storeDeleteSnapshotData env.faults (csdoObjName env pn pu v)
            { datas := st.datas ++ [csdoDataObj env pn pns pu v]
              snaps := st.snaps }).snd).snd
        dataRollbackErr :=
          match (storeDeleteSnapshotData env.faults (csdoObjName env pn pu v)
            { datas := st.datas ++ [csdoDataObj env pn pns pu v]
              snaps := st.snaps }).fst with
          | Except.error de => some de
          | Except.ok _ => none } := by
  simp only [csdoObjName] at hcd hfd hcs
  simp only [csdoLoop, storeCreateSnapshotData, hcd, hfd,
    storeCreateSnapshot, hcs, isAlreadyExistsErr, Bool.false_eq_true,
    if_false, csdoDataObj, csdoObjName]

theorem findDataObj_append_none (l1 l2 : List VolumeSnapshotDataObj)
    (n : String) (h1 : findDataObj l1 n = none)
    (h2 : findDataObj l2 n = none) : findDataObj (l1 ++ l2) n = none := by
  unfold findDataObj at h1 h2 ⊢
  rw [List.find?_eq_none] at h1 h2 ⊢
  intro d hd
  rcases List.mem_append.mp hd with h | h
  · exact h1 d h
  · exact h2 d h

theorem findSnapObj_append_none (l1 l2 : List VolumeSnapshotObj)
    (ns n : String) (h1 : findSnapObj l1 ns n = none)
    (h2 : findSnapObj l2 ns n = none) :
    findSnapObj (l1 ++ l2) ns n = none := by
  unfold findSnapObj at h1 h2 ⊢
  rw [List.find?_eq_none] at h1 h2 ⊢
  intro s hs
  rcases List.mem_append.mp hs with h | h
  · exact h1 s h
  · exact h2 s h


/-- Processing a prefix of clean volumes creates one data/snapshot object
pair per volume and recurses on the remainder with the extended store. -/
theorem csdoLoop_clean_prefix (env : GSEnv) (pn pns pu : String) :
    ∀ (pre : List VolumeSnapshotStatus) (objs : List VolumeSnapshotObj)
      (stats tail : List VolumeSnapshotStatus) (st : Store),
    (∀ v ∈ pre,
        env.faults.createDataFault (csdoObjName env pn pu v) = none ∧
        env.faults.createSnapFault (csdoObjName env pn pu v) = none ∧
        findDataObj st.datas (csdoObjName env pn pu v) = none ∧
        findSnapObj st.snaps pns (csdoObjName env pn pu v) = none) →
    (pre.map (csdoObjName env pn pu)).Nodup →
    csdoLoop env pn pns pu objs stats (pre ++ tail) st =
      { csdoLoop env pn pns pu (objs ++ pre.map (csdoSnapObj env pn pns pu))
          (stats ++ pre.map (fun v => { v with
              volumeSnapshotName := csdoObjName env pn pu v })) tail
          { datas := st.datas ++ pre.map (csdoDataObj env pn pns pu)
            snaps := st.snaps ++ pre.map (csdoSnapObj env pn pns pu) } with
        calls := pre.map (fun v => DriverCall.inspectVolume v.parentVolumeID)
          ++ (csdoLoop env pn pns pu
              (objs ++ pre.map (csdoSnapObj env pn pns pu))
              (stats ++ pre.map (fun v => { v with
                  volumeSnapshotName := csdoObjName env pn pu v })) tail
              { datas := st.datas ++ pre.map (csdoDataObj env pn pns pu)
                snaps := st.snaps ++ pre.map (csdoSnapObj env pn pns pu) }).calls } := by
  intro pre
  induction pre with
  | nil =>
    intro objs stats tail st h hnd
    simp
  | cons v pre ih =>
    intro objs stats tail st h hnd
    obtain ⟨hcd, hcs, hfd, hfs⟩ := h v (by simp)
    rw [List.cons_append,
      csdoLoop_clean_step env pn pns pu objs stats v (pre ++ tail) st
        hcd hcs hfd hfs]
    rw [List.map_cons, List.nodup_cons] at hnd
    obtain ⟨hnotin, hnd⟩ := hnd
    have hne : ∀ v' ∈ pre,
        csdoObjName env pn pu v ≠ csdoObjName env pn pu v' := by
      intro v' hv' he
      exact hnotin (he ▸ List.mem_map_of_mem (csdoObjName env pn pu) hv')
    have hrest : ∀ v' ∈ pre,
        env.faults.createDataFault (csdoObjName env pn pu v') = none ∧
        env.faults.createSnapFault (csdoObjName env pn pu v') = none ∧
        findDataObj (st.datas ++ [csdoDataObj env pn pns pu v])
          (csdoObjName env pn pu v') = none ∧
        findSnapObj (st.snaps ++ [csdoSnapObj env pn pns pu v]) pns
          (csdoObjName env pn pu v') = none := by
      intro v' hv'
      obtain ⟨h1, h2, h3, h4⟩ := h v' (List.mem_cons_of_mem v hv')
      refine ⟨h1, h2, ?_, ?_⟩
      · refine findDataObj_append_none _ _ _ h3
          (findDataObj_eq_none_of_names _ _ ?_)
        intro d hd
        rw [List.mem_singleton.mp hd]
        exact hne v' hv'
      · refine findSnapObj_append_none _ _ _ _ h4
          (findSnapObj_eq_none_of_names _ _ _ ?_)
        intro s hs
        rw [List.mem_singleton.mp hs]
        exact hne v' hv'
    have hih := ih (objs ++ [csdoSnapObj env pn pns pu v])
      (stats ++ [{ v with volumeSnapshotName := csdoObjName env pn pu v }])
      tail
      { datas := st.datas ++ [csdoDataObj env pn pns pu v]
        snaps := st.snaps ++ [csdoSnapObj env pn pns pu v] }
      hrest hnd
    simp only [hih]
    simp [List.append_assoc]

theorem storeDeleteSnapshotData_found (f : Faults) (n : String) (st : Store)
    (hdd : f.deleteDataFault n = none)
    (hfound : (findDataObj st.datas n).isSome = true) :
    (storeDeleteSnapshotData f n st).snd =
      { st with datas := removeDataObj st.datas n } := by
  unfold storeDeleteSnapshotData
  rw [hdd]
  rcases hv : findDataObj st.datas n with _ | x
  · rw [hv] at hfound
    exact absurd hfound (by simp)
  · rfl

/-- After the rollback delete of the half-created pair's data object, that
object is gone from the store regardless of what the snapshot reverts do. -/
theorem rollback_data_deleted (f : Faults) (objs : List VolumeSnapshotObj)
    (st : Store) (n : String)
    (hdd : f.deleteDataFault n = none)
    (hfound : (findDataObj st.datas n).isSome = true) :
    findDataObj ((revertSnapObjs f objs
      (storeDeleteSnapshotData f n st).snd).fst).datas n = none := by
  rw [storeDeleteSnapshotData_found f n st hdd hfound]
  rw [revertSnapObjs_eq_revertLoop]
  rw [(revertLoop_props f objs
    { st with datas := removeDataObj st.datas n }).1]
  exact findDataObj_removeDataObj st.datas n

theorem rollback_log_names_map (f : Faults) (objs : List VolumeSnapshotObj)
    (st : Store) :
    ((revertSnapObjs f objs st).snd).map RevertEntry.name
      = objs.map VolumeSnapshotObj.name := by
  rw [revertSnapObjs_eq_revertLoop]
  exact (revertLoop_props f objs st).2.1

theorem rollback_log_attempts (f : Faults) (objs : List VolumeSnapshotObj)
    (st : Store) :
    ∀ entry ∈ (revertSnapObjs f objs st).snd,
      entry.attempts ≤ snapDeleteBackoffSteps := by
  rw [revertSnapObjs_eq_revertLoop]
  exact (revertLoop_props f objs st).2.2

/-- The rollback behaviour of the materialization loop, stated over the
loop with explicit parent identifiers. -/
theorem csdoLoop_rollback_aux (env : GSEnv) (pn pns pu : String)
    (pre rest : List VolumeSnapshotStatus) (vbad : VolumeSnapshotStatus)
    (m : String)
    (hclean : ∀ v ∈ pre,
        env.faults.createDataFault (csdoObjName env pn pu v) = none ∧
        env.faults.createSnapFault (csdoObjName env pn pu v) = none)
    (hnodup : (pre.map (csdoObjName env pn pu)).Nodup)
    (hnotin : csdoObjName env pn pu vbad ∉
        pre.map (csdoObjName env pn pu))
    (hbd : env.faults.createDataFault (csdoObjName env pn pu vbad) = none)
    (hbs : env.faults.createSnapFault (csdoObjName env pn pu vbad) = some m) :
    (csdoLoop env pn pns pu [] [] (pre ++ vbad :: rest) emptyStore).res
      = Except.error (GoErr.apiErr m) ∧
    (env.faults.deleteDataFault (csdoObjName env pn pu vbad) = none →
      findDataObj (csdoLoop env pn pns pu [] [] (pre ++ vbad :: rest)
        emptyStore).store.datas (csdoObjName env pn pu vbad) = none) ∧
    (csdoLoop env pn pns pu [] [] (pre ++ vbad :: rest)
        emptyStore).revertLog.map RevertEntry.name
      = pre.map (csdoObjName env pn pu) ∧
    (∀ entry ∈ (csdoLoop env pn pns pu [] [] (pre ++ vbad :: rest)
        emptyStore).revertLog, entry.attempts ≤ snapDeleteBackoffSteps) := by
  have hpre : ∀ v ∈ pre,
      env.faults.createDataFault (csdoObjName env pn pu v) = none ∧
      env.faults.createSnapFault (csdoObjName env pn pu v) = none ∧
      findDataObj emptyStore.datas (csdoObjName env pn pu v) = none ∧
      findSnapObj emptyStore.snaps pns (csdoObjName env pn pu v) = none :=
    fun v hv => ⟨(hclean v hv).1, (hclean v hv).2, rfl, rfl⟩
  have heq1 := csdoLoop_clean_prefix env pn pns pu pre [] [] (vbad :: rest)
    emptyStore hpre hnodup
  have hfdbad : findDataObj
      (emptyStore.datas ++ pre.map (csdoDataObj env pn pns pu))
      (csdoObjName env pn pu vbad) = none := by
    apply findDataObj_eq_none_of_names
    intro d hd
    rcases List.mem_append.mp hd with h | h
    · exact absurd h (by simp [emptyStore])
    · obtain ⟨v, hv, hdv⟩ := List.mem_map.mp h
      rw [← hdv]
      show csdoObjName env pn pu v ≠ csdoObjName env pn pu vbad
      intro he
      exact hnotin (he ▸ List.mem_map_of_mem (csdoObjName env pn pu) hv)
  have heq2 := csdoLoop_failing_step env pn pns pu
    ([] ++ pre.map (csdoSnapObj env pn pns pu))
    ([] ++ pre.map (fun v => { v with
        volumeSnapshotName := csdoObjName env pn pu v }))
    vbad rest
    { datas := emptyStore.datas ++ pre.map (csdoDataObj env pn pns pu)
      snaps := emptyStore.snaps ++ pre.map (csdoSnapObj env pn pns pu) }
    m hbd hfdbad hbs
  simp only [heq2] at heq1
  rw [heq1]
  refine ⟨rfl, ?_, ?_, ?_⟩
  · intro hdd
    exact rollback_data_deleted env.faults
      ([] ++ pre.map (csdoSnapObj env pn pns pu)) _
      (csdoObjName env pn pu vbad) hdd
      (findDataObj_append_self_isSome _ (csdoDataObj env pn pns pu vbad))
  · refine Eq.trans (rollback_log_names_map env.faults
      ([] ++ pre.map (csdoSnapObj env pn pns pu)) _) ?_
    simp only [List.nil_append, List.map_map]
    rfl
  · intro entry hmem
    exact rollback_log_attempts env.faults
      ([] ++ pre.map (csdoSnapObj env pn pns pu)) _ entry hmem

/-- C9: when creating a snapshot object fails (with the paired data object
already created), the data object is deleted (when the API delete works),
every snapshot object created earlier in the same batch goes through the
bounded fixed-delay (factor 1, 60 steps) backoff delete loop with at most
`snapDeleteBackoffSteps` attempts each, still-failing deletions are only
logged, and the primary error is returned to the caller unchanged —
whatever the deletion faults are. -/
theorem createSnapAndDataObjects_rollback_policy
    (env : GSEnv) (gs : GroupVolumeSnapshot)
    (pre rest : List VolumeSnapshotStatus) (vbad : VolumeSnapshotStatus)
    (m : String)
    (hclean : ∀ v ∈ pre,
        env.faults.createDataFault (csdoObjName env gs.name gs.uid v) = none ∧
        env.faults.createSnapFault (csdoObjName env gs.name gs.uid v) = none)
    (hnodup : (pre.map (csdoObjName env gs.name gs.uid)).Nodup)
    (hnotin : csdoObjName env gs.name gs.uid vbad ∉
        pre.map (csdoObjName env gs.name gs.uid))
    (hbd : env.faults.createDataFault
        (csdoObjName env gs.name gs.uid vbad) = none)
    (hbs : env.faults.createSnapFault
        (csdoObjName env gs.name gs.uid vbad) = some m) :
    (GroupSnapshotController.createSnapAndDataObjects env gs
        (pre ++ vbad :: rest) emptyStore).res
      = Except.error (GoErr.apiErr m) ∧
    (env.faults.deleteDataFault (csdoObjName env gs.name gs.uid vbad) = none →
      findDataObj (GroupSnapshotController.createSnapAndDataObjects env gs
          (pre ++ vbad :: rest) emptyStore).store.datas
        (csdoObjName env gs.name gs.uid vbad) = none) ∧
    (GroupSnapshotController.createSnapAndDataObjects env gs
        (pre ++ vbad :: rest) emptyStore).revertLog.map RevertEntry.name
      = pre.map (csdoObjName env gs.name gs.uid) ∧
    (∀ entry ∈ (GroupSnapshotController.createSnapAndDataObjects env gs
        (pre ++ vbad :: rest) emptyStore).revertLog,
      entry.attempts ≤ snapDeleteBackoffSteps) ∧
    snapDeleteBackoffFactor = 1 ∧ snapDeleteBackoffSteps = 60 := by
  have haux := csdoLoop_rollback_aux env gs.name
    (if gs.ns == "" then "default" else gs.ns) gs.uid pre rest vbad m
    hclean hnodup hnotin hbd hbs
  exact ⟨haux.1, haux.2.1, haux.2.2.1, haux.2.2.2, rfl, rfl⟩

/-- Faults for the rollback witness: the second volume's snapshot create
fails, and every rollback snapshot delete is refused (so the compensation
loop exhausts its budget) — the primary error must still come back. -/
def c9Faults : Faults :=
  { createDataFault := fun _ => none
    getDataFault := fun _ => none
    deleteDataFault := fun _ => none
    createSnapFault := fun n =>
      if n == "gs1-vol2-uid1" then some "snap create failed" else none
    deleteSnapFault := fun _ _ => some "delete refused" }

def c9Env : GSEnv := { trivialGSEnv with faults := c9Faults }

def c9vol1 : VolumeSnapshotStatus :=
  { parentVolumeID := "vol1", taskID := "t1", volumeSnapshotName := ""
    dataSource := "s1"
    conditions := [{ ctype := VolumeSnapshotConditionType.ready
                     status := ConditionStatus.conditionTrue
                     message := "ok" }] }

def c9vol2 : VolumeSnapshotStatus := { c9vol1 with parentVolumeID := "vol2" }

/-- Witness for C9: one earlier volume, a failing second volume, all
rollback deletes refused. -/
theorem createSnapAndDataObjects_rollback_policy_witness :
    (GroupSnapshotController.createSnapAndDataObjects c9Env materializeGS
        ([c9vol1] ++ c9vol2 :: []) emptyStore).res
      = Except.error (GoErr.apiErr "snap create failed") ∧
    findDataObj (GroupSnapshotController.createSnapAndDataObjects c9Env
        materializeGS ([c9vol1] ++ c9vol2 :: []) emptyStore).store.datas
      (csdoObjName c9Env materializeGS.name materializeGS.uid c9vol2)
      = none ∧
    (GroupSnapshotController.createSnapAndDataObjects c9Env materializeGS
        ([c9vol1] ++ c9vol2 :: []) emptyStore).revertLog.map RevertEntry.name
      = ["gs1-vol1-uid1"] := by
  have h := createSnapAndDataObjects_rollback_policy c9Env materializeGS
    [c9vol1] [] c9vol2 "snap create failed"
    (by decide) (by decide) (by decide) (by decide) (by decide)
  exact ⟨h.1, h.2.1 (by decide), Eq.trans h.2.2.1 (by decide)⟩

/-- A record with zero conditions. -/
def noCondRecord : VolumeSnapshotStatus :=
  { parentVolumeID := "v", taskID := "t", volumeSnapshotName := ""
    dataSource := "", conditions := [] }

/-- Witness for C10: a list holding a record with zero conditions is not
"all done". -/
theorem isAnySnapshotFailed_areAllSnapshotsDone_characterization_witness :
    areAllSnapshotsDone [noCondRecord] = false :=
  isAnySnapshotFailed_areAllSnapshotsDone_characterization.2.2.2.2
    [noCondRecord] noCondRecord (List.mem_singleton_self noCondRecord) rfl
